import Mathlib

/-!
# Verification of the whatsapp-backend core against its specification

Shallow embedding of the core subsystems of the `whatsapp-backend`
repository (webhook ingestion, status reconciliation, broadcast
dispatcher, chatbot flow interpreter) together with theorems settling
the specification claims.

Conventions of the embedding:
* Database tables are Lean lists of records; Prisma `findFirst` is
  `List.find?` (first row in insertion order), `create` appends,
  `update` maps over the list replacing the matching row in place.
* JavaScript dynamic values in the chatbot variable bag are modelled by
  the inductive `JsVal`; the untyped bag is an association list.
* Wall-clock time is threaded explicitly (`now`, `day`, `hour`) where
  the source calls `new Date()`.
* Outbound WhatsApp sends and scheduled chatbot invocations are
  recorded in trace fields of the world state.
-/

namespace WABackend

/-- JavaScript values as they occur in the chatbot variable bag and in
webhook payloads: strings, (integer) numbers, booleans, arrays, objects
and `null`.  Absence of a key (JavaScript `undefined`) is modelled by
`Option.none` at use sites. -/
inductive JsVal where
  | str (s : String)
  | num (n : Int)
  | boolv (b : Bool)
  | arr (xs : List JsVal)
  | obj (fields : List (String × JsVal))
  | nullv

/-- JavaScript truthiness of a present value (`undefined` handled at use
sites): empty string, `0`, `false` and `null` are falsy; arrays and
objects are always truthy. -/
def jsTruthy : JsVal → Bool
  | .str s => !(s == "")
  | .num n => !(n == 0)
  | .boolv b => b
  | .arr _ => true
  | .obj _ => true
  | .nullv => false

mutual

/-- JavaScript `String(v)` conversion: arrays join their elements with
`","` (with `null` elements rendered empty), objects render as
`"[object Object]"`. -/
def jsToString : JsVal → String
  | .str s => s
  | .num n => toString n
  | .boolv b => cond b "true" "false"
  | .arr xs => jsArrToString xs
  | .obj _ => "[object Object]"
  | .nullv => "null"

/-- `Array.prototype.toString`: elements joined by `","`, `null`
elements as the empty string. -/
def jsArrToString : List JsVal → String
  | [] => ""
  | [.nullv] => ""
  | [x] => jsToString x
  | .nullv :: xs => "," ++ jsArrToString xs
  | x :: xs => jsToString x ++ "," ++ jsArrToString xs

end

/-- The chatbot variable bag: a JavaScript object, i.e. an ordered
association list from names to values. -/
abbrev VarBag := List (String × JsVal)

/-- Look a key up in the bag (`variables[k]`); `none` is JavaScript
`undefined`. -/
def bagGet (bag : VarBag) (k : String) : Option JsVal :=
  (bag.find? (fun p => p.1 == k)).map (·.2)

/-- `variables[k] = v`: replace in place when present, append otherwise
(JavaScript objects keep insertion order). -/
def bagSet (bag : VarBag) (k : String) (v : JsVal) : VarBag :=
  if bag.any (fun p => p.1 == k) then
    bag.map (fun p => if p.1 == k then (k, v) else p)
  else
    bag ++ [(k, v)]

/-- `delete variables[k]`. -/
def bagDel (bag : VarBag) (k : String) : VarBag :=
  bag.filter (fun p => !(p.1 == k))

/-- Structurally recursive replacements for the core `String` methods
used by the source (`toUpperCase`, `toLowerCase`, `trim`, `split`,
numeral parsing); the core versions are defined by well-founded
recursion and do not reduce definitionally, which the concrete
counterexamples and witnesses below rely on.  ASCII-wise case mapping
matches the JavaScript methods on the data of this system. -/
def jsToUpperStr (s : String) : String := String.mk (s.data.map Char.toUpper)

/-- `s.toLowerCase()`. -/
def jsToLowerStr (s : String) : String := String.mk (s.data.map Char.toLower)

/-- The whitespace characters `trim` strips. -/
def jsWhitespace (c : Char) : Bool :=
  c == ' ' || c == '\t' || c == '\n' || c == '\r'

/-- `s.trim()`. -/
def jsTrimStr (s : String) : String :=
  String.mk (((s.data.dropWhile jsWhitespace).reverse.dropWhile jsWhitespace).reverse)

/-- `split` on a one-character separator over the character list
(`"".split(sep)` is `[""]`, empty fields are kept). -/
def splitChars (sep : Char) : List Char → List (List Char)
  | [] => [[]]
  | c :: rest =>
      if c == sep then [] :: splitChars sep rest
      else
        match splitChars sep rest with
        | h :: t => (c :: h) :: t
        | [] => [[c]]

/-- `s.split(sep)` for a one-character separator. -/
def jsSplit (s : String) (sep : Char) : List String :=
  (splitChars sep s.data).map String.mk

/-- Parse a non-empty all-digit string as a natural number (the
behaviour of the core `String.toNat?`). -/
def jsToNat (s : String) : Option Nat :=
  if s.data.isEmpty then none
  else if s.data.all Char.isDigit then
    some (s.data.foldl (fun acc c => acc * 10 + (c.toNat - 48)) 0)
  else none

/-- Stable insertion into a list sorted by `le`. -/
def insertSorted (le : α → α → Bool) (x : α) : List α → List α
  | [] => [x]
  | y :: ys => if le x y then x :: y :: ys else y :: insertSorted le x ys

/-- Stable sort by `le` (JavaScript `Array.prototype.sort` with a
numeric comparator is stable). -/
def sortStable (le : α → α → Bool) : List α → List α
  | [] => []
  | x :: xs => insertSorted le x (sortStable le xs)

/-- A string that is the canonical decimal numeral of a natural number
(the only property keys under which JavaScript arrays expose their
elements). -/
def isCanonicalIndex (s : String) : Option Nat :=
  match jsToNat s with
  | some n => if toString n == s then some n else none
  | none => none

/-- JavaScript property access `v?.[k]` on a single value: field lookup
on objects, canonical-index element access on arrays and strings,
`undefined` otherwise. -/
def jsIndex : JsVal → String → Option JsVal
  | .obj fields, k => (fields.find? (fun p => p.1 == k)).map (·.2)
  | .arr xs, k =>
      match isCanonicalIndex k with
      | some n => xs[n]?
      | none => none
  | .str s, k =>
      match isCanonicalIndex k with
      | some n => (s.toList[n]?).map (fun c => .str (String.mk [c]))
      | none => none
  | _, _ => none

/-- `segs.reduce((obj, i) => obj?.[i], variables)` from
`replaceVariables` in `chatbotService`: fold property access over the
path segments, starting from the bag object itself. -/
def resolvePath (bag : VarBag) (segs : List String) : Option JsVal :=
  segs.foldl (fun acc seg => acc.bind (fun v => jsIndex v seg)) (some (JsVal.obj bag))

/-- Characters the JavaScript regex `.` does not match (line
terminators); the token of `/\{\{(.*?)\}\}/` cannot span them. -/
def jsDotExcluded (c : Char) : Bool :=
  c == Char.ofNat 10 || c == Char.ofNat 13 ||
  c == Char.ofNat 0x2028 || c == Char.ofNat 0x2029

/-- What `replaceVariables` substitutes for one matched token with raw
(captured, untrimmed) key `key`: the resolved value's string form, or
the original token verbatim when the path resolves to `undefined`. -/
def renderToken (bag : VarBag) (key : String) : String :=
  match resolvePath bag (jsSplit (jsTrimStr key) '.') with
  | some v => jsToString v
  | none => "\x7b\x7b" ++ key ++ "\x7d\x7d"

mutual

/-- The scan of `text.replace(/\{\{(.*?)\}\}/g, ...)` from
`replaceVariables` in `chatbotService`: copy characters until a double
opening brace opens a token, then collect the lazily-shortest token. -/
def interpGo (bag : VarBag) (l : List Char) : List Char :=
  match l with
  | [] => []
  | [c] => [c]
  | c :: c2 :: rest2 =>
      if c = '{' ∧ c2 = '{' then interpTok bag rest2 []
      else c :: interpGo bag (c2 :: rest2)

/-- Token collection: `acc` holds the reversed characters captured so
far; the first double closing brace closes the token (lazy `.*?`); a
line terminator or the end of input means the regex never matches this
opener, so the scanned characters are emitted unchanged. -/
def interpTok (bag : VarBag) (l : List Char) (acc : List Char) : List Char :=
  match l with
  | [] => '{' :: '{' :: acc.reverse
  | [c] =>
      if jsDotExcluded c then '{' :: '{' :: (acc.reverse ++ [c])
      else '{' :: '{' :: (c :: acc).reverse
  | c :: c2 :: rest2 =>
      if c = '}' ∧ c2 = '}' then
        (renderToken bag (String.mk acc.reverse)).toList ++ interpGo bag rest2
      else if jsDotExcluded c then
        '{' :: '{' :: (acc.reverse ++ c :: interpGo bag (c2 :: rest2))
      else interpTok bag (c2 :: rest2) (c :: acc)

end

/-- `replaceVariables(text, variables)` from `chatbotService`:
interpolate `{\x7bpath\x7d}` tokens against the bag, leaving unresolved
tokens verbatim. -/
def replaceVariables (text : String) (bag : VarBag) : String :=
  String.mk (interpGo bag text.toList)

/-- The parsed shape of a flow's working-hours JSON policy:
`{ days: [0..6], startHour: h, endHour: h }`, every field optional. -/
structure WorkingHoursConfig where
  days : Option (List Nat)
  startHour : Option Int
  endHour : Option Int

/-- `checkWorkingHours(workingHoursJson)` from `chatbotService`.  The
argument models `JSON.parse` of the stored string: `none` is a parse
failure (the function's `catch` returns `true`), `some c` the parsed
config.  `day`/`hour` stand for `new Date().getDay()`/`.getHours()`.
Note `config.days && ...`: an absent `days` skips the day check, while
an empty array (truthy in JavaScript) fails it. -/
def checkWorkingHours (cfg : Option WorkingHoursConfig) (day : Nat) (hour : Int) : Bool :=
  match cfg with
  | none => true
  | some c =>
      if (match c.days with
          | some ds => !(ds.contains day)
          | none => false) then false
      else if (match c.startHour with
          | some s => decide (hour < s)
          | none => false) then false
      else if (match c.endHour with
          | some e => decide (e ≤ hour)
          | none => false) then false
      else true

/-! ## Data model (Prisma schema) -/

/-- `MessageStatus` enum (also used for `BroadcastRecipient.status`). -/
inductive MessageStatus where
  | PENDING | SENT | DELIVERED | READ | FAILED
deriving DecidableEq

/-- `BroadcastStatus` enum. -/
inductive BroadcastStatus where
  | PENDING | SCHEDULED | PROCESSING | COMPLETED | FAILED | CANCELLED
deriving DecidableEq

/-- `ConversationStatus` enum. -/
inductive ConversationStatus where
  | OPEN | PENDING | RESOLVED | CLOSED
deriving DecidableEq

/-- Message `Direction` enum. -/
inductive Direction where
  | INCOMING | OUTGOING
deriving DecidableEq

/-- `Organization` row (the tenant), fields the core reads. -/
structure OrgRec where
  id : String
  phoneNumberId : Option String
  isActive : Bool


/-- `Contact` row; unique on `(waId, organizationId)`. -/
structure ContactRec where
  id : String
  waId : String
  organizationId : String
  name : Option String
  profileName : Option String
  phoneNumber : String


/-- `Conversation` row. -/
structure ConversationRec where
  id : String
  contactId : String
  organizationId : String
  status : ConversationStatus
  unreadCount : Int
  lastMessageAt : Option Int
  lastMessagePreview : Option String
  broadcastId : Option String
  broadcastName : Option String
  isReply : Bool


/-- An interactive inbound payload (`message.interactive`), as persisted
in the message metadata and re-read by the interpreter on resume. -/
inductive InteractiveReply where
  | buttonReply (id title : String)
  | listReply (id title : String)
  | nfmReply (fields : VarBag)
  | other


/-- `Message` row; `waMessageId` carries a unique index. -/
structure MessageRec where
  id : String
  waMessageId : Option String
  conversationId : String
  organizationId : String
  mtype : String
  content : String
  caption : Option String
  mediaUrl : Option String
  mediaId : Option String
  direction : Direction
  status : MessageStatus
  isRead : Bool
  timestamp : Int
  metadata : Option InteractiveReply


/-- `Broadcast` row. -/
structure BroadcastRec where
  id : String
  organizationId : String
  name : String
  templateName : String
  templateLanguage : String
  status : BroadcastStatus
  totalRecipients : Int
  sentCount : Int
  deliveredCount : Int
  readCount : Int
  failedCount : Int
  replyCount : Int
  scheduledAt : Option Int
  startedAt : Option Int
  completedAt : Option Int
  mediaId : Option String
  mediaType : Option String
  enableChatbot : Bool


/-- `BroadcastRecipient` row; `waMessageId` carries a unique index. -/
structure RecipientRec where
  id : String
  broadcastId : String
  phoneNumber : String
  vars : Option JsVal
  status : MessageStatus
  error : Option String
  waMessageId : Option String
  sentAt : Option Int
  deliveredAt : Option Int
  readAt : Option Int


/-- `Flow` row.  `nodes`/`edges` are stored as JSON text in the DB; the
embedding stores the parsed lists.  `workingHours` is a nullable JSON
string: the outer `Option` is SQL `NULL`, the inner `Option` models the
result of `JSON.parse` (`none` = malformed string). -/
structure FlowNode where
  id : String
  ntype : String
  data : VarBag


/-- A flow edge (`source`, `target`, optional `sourceHandle`). -/
structure FlowEdge where
  source : String
  target : String
  sourceHandle : Option String


/-- `Flow` row. -/
structure FlowRec where
  id : String
  name : String
  organizationId : String
  nodes : List FlowNode
  edges : List FlowEdge
  triggerKeyword : Option String
  isDefault : Bool
  isActive : Bool
  workingHours : Option (Option WorkingHoursConfig)
  sessionTimeout : Int


/-- `FlowSession` row; unique on `(contactId, organizationId)`. -/
structure SessionRec where
  id : String
  currentNodeId : Option String
  vars : VarBag
  lastInteraction : Int
  flowId : String
  contactId : String
  organizationId : String


/-- One row of an interactive list message. -/
structure ListRow where
  id : String
  title : String
  description : String
deriving DecidableEq

/-- One section of an interactive list message. -/
structure ListSection where
  title : String
  rows : List ListRow
deriving DecidableEq

/-- One recorded outbound WhatsApp send: the `(orgId, options)` pair
handed to `sendWhatsAppMessage` (which performs only HTTP, no DB
writes). -/
structure OutboundSend where
  organizationId : String
  toPhone : String
  mtype : String
  content : String
  caption : Option String
  mediaUrl : Option String
  templateName : Option String
  templateLanguage : Option String
  templateComponents : List JsVal
  buttons : List (String × String)
  sections : List ListSection
  footerText : Option String


/-- A scheduled chatbot-interpreter invocation
(`processChatbotFlow(orgId, contactId, waId, content, message)` fired in
the background from the webhook ingester). -/
structure ChatbotCall where
  organizationId : String
  contactId : String
  waId : String
  content : String
  messageId : String


/-- The persistent state plus effect traces shared by the embedded
subsystems. -/
structure World where
  orgs : List OrgRec
  contacts : List ContactRec
  conversations : List ConversationRec
  messages : List MessageRec
  broadcasts : List BroadcastRec
  recipients : List RecipientRec
  flows : List FlowRec
  sessions : List SessionRec
  outbox : List OutboundSend
  chatbotCalls : List ChatbotCall
  nextId : Nat


/-- Update the broadcast row with the given id in place. -/
def updBroadcast (w : World) (id : String) (f : BroadcastRec → BroadcastRec) : World :=
  { w with broadcasts := w.broadcasts.map (fun b => if b.id == id then f b else b) }

/-- Update the recipient row with the given id in place. -/
def updRecipient (w : World) (id : String) (f : RecipientRec → RecipientRec) : World :=
  { w with recipients := w.recipients.map (fun r => if r.id == id then f r else r) }

/-- Update the message row with the given id in place. -/
def updMessage (w : World) (id : String) (f : MessageRec → MessageRec) : World :=
  { w with messages := w.messages.map (fun m => if m.id == id then f m else m) }

/-- Update the conversation row with the given id in place. -/
def updConversation (w : World) (id : String) (f : ConversationRec → ConversationRec) : World :=
  { w with conversations := w.conversations.map (fun c => if c.id == id then f c else c) }

/-- Update the session row with the given id in place. -/
def updSession (w : World) (id : String) (f : SessionRec → SessionRec) : World :=
  { w with sessions := w.sessions.map (fun s => if s.id == id then f s else s) }

/-! ## Webhook status reconciler (`whatsappService.handleMessageStatus`) -/

/-- A provider status envelope entry: `{ id, status }` with `status`
one of `sent | delivered | read | failed` (lower-case on the wire). -/
structure StatusEvent where
  id : String
  status : String


/-- The `statusMap` lookup used twice in `handleMessageStatus`: maps the
upper-cased provider status to the enum; unknown strings map to
nothing (the code then falls back to the existing status). -/
def statusMap (s : String) : Option MessageStatus :=
  if s == "SENT" then some .SENT
  else if s == "DELIVERED" then some .DELIVERED
  else if s == "READ" then some .READ
  else if s == "FAILED" then some .FAILED
  else none

/-- `handleMessageStatus(orgId, status)` from `whatsappService`: update
the matching message row (tenant-scoped) with the mapped status, then
update the matching non-failed broadcast recipient and bump the
broadcast's delivered/read/failed counter for the event.  `now` stands
for `new Date()`. -/
def handleMessageStatus (w : World) (orgId : String) (ev : StatusEvent) (now : Int) : World :=
  let waMessageId := ev.id
  let newStatus := jsToUpperStr ev.status
  let w1 :=
    match w.messages.find? (fun m => m.waMessageId == some waMessageId && m.organizationId == orgId) with
    | some message =>
        updMessage w message.id (fun m =>
          { m with status := (statusMap newStatus).getD message.status,
                   isRead := newStatus == "READ" })
    | none => w
  match w1.recipients.find? (fun r => r.waMessageId == some waMessageId && !(r.status == .FAILED)) with
  | some recipient =>
      let finalStatus := (statusMap newStatus).getD recipient.status
      let w2 := updRecipient w1 recipient.id (fun r =>
        { r with status := finalStatus,
                 deliveredAt := if newStatus == "DELIVERED" then some now else recipient.deliveredAt,
                 readAt := if newStatus == "READ" then some now else recipient.readAt })
      if newStatus == "DELIVERED" then
        updBroadcast w2 recipient.broadcastId (fun b => { b with deliveredCount := b.deliveredCount + 1 })
      else if newStatus == "READ" then
        updBroadcast w2 recipient.broadcastId (fun b => { b with readCount := b.readCount + 1 })
      else if newStatus == "FAILED" then
        updBroadcast w2 recipient.broadcastId (fun b => { b with failedCount := b.failedCount + 1 })
      else w2
  | none => w1

/-! ## Broadcast dispatcher (`broadcastService.startBroadcast`) -/

/-- Result of one provider send attempt, the oracle for the HTTP call
inside `sendWhatsAppMessage`: `ok id` is a 2xx with provider message
id, `fail msg` any error. -/
inductive SendResult where
  | ok (messageId : String)
  | fail (error : String)


/-- `broadcastService.parseVariables`: turn the per-recipient variable
object into the ordered body-parameter texts.  Keys are sorted
numerically; empty values are coerced to `"-"` to keep the parameter
count stable.  Non-object inputs yield no parameters. -/
def parseVariables (variablesInput : Option JsVal) : List String :=
  match variablesInput with
  | none => []
  | some (.obj fields) =>
      let sorted := sortStable (fun a b => ((jsToNat a.1).getD 0) ≤ ((jsToNat b.1).getD 0)) fields
      sorted.map (fun p =>
        let v := match p.2 with
          | .nullv => ""
          | other => jsToString other
        if jsTrimStr v == "" then "-" else jsTrimStr v)
  | some (.arr xs) =>
      xs.map (fun x =>
        let v := match x with
          | .nullv => ""
          | other => jsToString other
        if jsTrimStr v == "" then "-" else jsTrimStr v)
  | some _ => []

/-- The per-recipient send of `startBroadcast`: build the template
components (header first when the broadcast carries media, then the
body parameters), call `sendWhatsAppMessage`, and record the outcome on
the recipient and the broadcast counters; on success also refresh the
recipient's conversation preview and broadcast attribution. -/
def sendToRecipient (w : World) (broadcast : BroadcastRec) (r : RecipientRec)
    (oracle : Nat → SendResult) (now : Int) : World :=
  let headerComponents : List JsVal :=
    match broadcast.mediaId, broadcast.mediaType with
    | some mid, some mt =>
        [JsVal.obj [("type", .str "header"),
                    ("parameters", .arr [.obj [("type", .str mt), ("id", .str mid)]])]]
    | _, _ => []
  let bodyParams := parseVariables r.vars
  let bodyComponents : List JsVal :=
    if bodyParams.length > 0 then
      [JsVal.obj [("type", .str "body"),
                  ("parameters", .arr (bodyParams.map (fun t => .obj [("type", .str "text"), ("text", .str t)])))]]
    else []
  let send : OutboundSend :=
    { organizationId := broadcast.organizationId
      toPhone := r.phoneNumber
      mtype := "template"
      content := ""
      caption := none
      mediaUrl := none
      templateName := some broadcast.templateName
      templateLanguage := some broadcast.templateLanguage
      templateComponents := headerComponents ++ bodyComponents
      buttons := []
      sections := []
      footerText := none }
  let result := oracle w.outbox.length
  let w0 := { w with outbox := w.outbox ++ [send] }
  match result with
  | .ok messageId =>
      let w1 := updRecipient w0 r.id (fun rr =>
        { rr with status := .SENT, waMessageId := some messageId, sentAt := some now })
      let w2 := updBroadcast w1 broadcast.id (fun b => { b with sentCount := b.sentCount + 1 })
      match w2.conversations.find? (fun c =>
          c.organizationId == broadcast.organizationId &&
          (w2.contacts.any (fun ct => ct.id == c.contactId && ct.phoneNumber == r.phoneNumber))) with
      | some conversation =>
          updConversation w2 conversation.id (fun c =>
            { c with lastMessageAt := some now,
                     lastMessagePreview := some ("[Template: " ++ broadcast.templateName ++ "]"),
                     broadcastId := some broadcast.id,
                     broadcastName := some broadcast.name,
                     isReply := false })
      | none => w2
  | .fail err =>
      let w1 := updRecipient w0 r.id (fun rr => { rr with status := .FAILED, error := some err })
      updBroadcast w1 broadcast.id (fun b => { b with failedCount := b.failedCount + 1 })

/-- Iterate the recipients (the source batches them 50 at a time with a
5 s pause and sends a batch concurrently; the pauses have no state
effect and the per-recipient effects are modelled in list order). -/
def sendAll (w : World) (broadcast : BroadcastRec) (rs : List RecipientRec)
    (oracle : Nat → SendResult) (now : Int) : World :=
  match rs with
  | [] => w
  | r :: rest => sendAll (sendToRecipient w broadcast r oracle now) broadcast rest oracle now

/-- `broadcastService.startBroadcast(broadcastId)`: fetch the broadcast
with its recipients, return unchanged unless its status is `PENDING` or
`SCHEDULED`, else mark it `PROCESSING`, send to every recipient, and
mark it `COMPLETED`.  (When the broadcast id does not exist the source
throws and its catch-all `update` rejects again: no state change.) -/
def startBroadcast (w : World) (broadcastId : String) (oracle : Nat → SendResult) (now : Int) : World :=
  match w.broadcasts.find? (fun b => b.id == broadcastId) with
  | none => w
  | some broadcast =>
      if !(broadcast.status == .PENDING) && !(broadcast.status == .SCHEDULED) then w
      else
        let recipients := w.recipients.filter (fun r => r.broadcastId == broadcastId)
        let w1 := updBroadcast w broadcastId (fun b =>
          { b with status := .PROCESSING, startedAt := some now })
        let w2 := sendAll w1 broadcast recipients oracle now
        updBroadcast w2 broadcastId (fun b =>
          { b with status := .COMPLETED, completedAt := some now })

/-! ## Webhook ingestion (`whatsappService.processIncomingMessage`) -/

/-- One provider inbound message entry (`value.messages[i]`).  The
per-type payload objects (`message.text`, `message.image`, …) are
flattened into optional fields; `none` is an absent payload field. -/
structure InboundMessage where
  fromNum : String
  id : String
  timestamp : Int
  mtype : String
  textBody : Option String
  imageId : Option String
  imageCaption : Option String
  videoId : Option String
  videoCaption : Option String
  audioId : Option String
  documentId : Option String
  documentCaption : Option String
  documentFilename : Option String
  stickerId : Option String
  locationLatitude : Option String
  locationLongitude : Option String
  contactsName : Option String
  orderItemCount : Option Int
  interactive : Option InteractiveReply
  buttonText : Option String

/-- JavaScript `x || dflt` for an optional string (`some ""` is falsy). -/
def strOr (o : Option String) (dflt : String) : String :=
  match o with
  | some s => if s == "" then dflt else s
  | none => dflt

/-- `getMessageType` from `whatsappService`: map the provider type
string to the `MessageType` enum value, `UNKNOWN` by default. -/
def getMessageType (waType : String) : String :=
  if waType == "text" then "TEXT"
  else if waType == "image" then "IMAGE"
  else if waType == "video" then "VIDEO"
  else if waType == "audio" then "AUDIO"
  else if waType == "document" then "DOCUMENT"
  else if waType == "location" then "LOCATION"
  else if waType == "contacts" then "CONTACTS"
  else if waType == "sticker" then "STICKER"
  else if waType == "interactive" then "INTERACTIVE"
  else if waType == "button" then "BUTTON"
  else if waType == "reaction" then "REACTION"
  else if waType == "order" then "ORDER"
  else if waType == "template" then "TEMPLATE"
  else "UNKNOWN"

/-- `extractMediaId` from `whatsappService`: `message[type]?.id || null`
for the five media types. -/
def extractMediaId (m : InboundMessage) : Option String :=
  let orNull : Option String → Option String := fun o =>
    match o with
    | some s => if s == "" then none else some s
    | none => none
  if m.mtype == "image" then orNull m.imageId
  else if m.mtype == "video" then orNull m.videoId
  else if m.mtype == "audio" then orNull m.audioId
  else if m.mtype == "document" then orNull m.documentId
  else if m.mtype == "sticker" then orNull m.stickerId
  else none

/-- Result record of `extractMessageContent` (all fields default to the
empty string in the source). -/
structure ExtractedContent where
  content : String
  mediaUrl : String
  mediaId : String
  caption : String

/-- `extractMessageContent` from `whatsappService`: derive the stored
content/media fields from the typed provider payload. -/
def extractMessageContent (m : InboundMessage) : ExtractedContent :=
  if m.mtype == "text" then
    { content := m.textBody.getD "", mediaUrl := "", mediaId := "", caption := "" }
  else if m.mtype == "image" then
    let mid := m.imageId.getD ""
    let cap := m.imageCaption.getD ""
    { content := if cap == "" then "[Image]" else cap, mediaUrl := mid, mediaId := mid, caption := cap }
  else if m.mtype == "video" then
    let mid := m.videoId.getD ""
    let cap := m.videoCaption.getD ""
    { content := if cap == "" then "[Video]" else cap, mediaUrl := mid, mediaId := mid, caption := cap }
  else if m.mtype == "audio" then
    let mid := m.audioId.getD ""
    { content := "[Audio]", mediaUrl := mid, mediaId := mid, caption := "" }
  else if m.mtype == "document" then
    let mid := m.documentId.getD ""
    let cap := m.documentCaption.getD ""
    { content := strOr m.documentFilename "[Document]", mediaUrl := mid, mediaId := mid, caption := cap }
  else if m.mtype == "location" then
    { content := "Location: " ++ m.locationLatitude.getD "undefined" ++ ", " ++
                 m.locationLongitude.getD "undefined",
      mediaUrl := "", mediaId := "", caption := "" }
  else if m.mtype == "contacts" then
    { content := "[Contact: " ++ strOr m.contactsName "Unknown" ++ "]",
      mediaUrl := "", mediaId := "", caption := "" }
  else if m.mtype == "sticker" then
    { content := "[Sticker]", mediaUrl := m.stickerId.getD "", mediaId := "", caption := "" }
  else if m.mtype == "order" then
    let itemCount := m.orderItemCount.getD 0
    { content := "🛍️ New Order: " ++ toString itemCount ++
                 (if itemCount == 1 then " item" else " items"),
      mediaUrl := "", mediaId := "", caption := "" }
  else if m.mtype == "interactive" then
    let content := match m.interactive with
      | some (.buttonReply _ title) => if title == "" then "Button Clicked" else title
      | some (.listReply _ title) => if title == "" then "List Item Selected" else title
      | some (.nfmReply fields) =>
          "📝 Form Response: " ++ toString fields.length ++ " fields submitted"
      | _ => "[Interactive Message]"
    { content := content, mediaUrl := "", mediaId := "", caption := "" }
  else if m.mtype == "button" then
    { content := strOr m.buttonText "[Button Click]", mediaUrl := "", mediaId := "", caption := "" }
  else
    { content := "[" ++ m.mtype ++ "]", mediaUrl := "", mediaId := "", caption := "" }

/-- `extractMetadata` from `whatsappService`, restricted to the
`interactive` payload (the stringified payload the interpreter re-reads
on resume; the order/button/location/contacts payloads are stored too
but never re-read by the embedded paths). -/
def extractMetadata (m : InboundMessage) : Option InteractiveReply :=
  if m.mtype == "interactive" then m.interactive else none

/-- Generate a fresh row id (Prisma cuid). -/
def genId (w : World) : String × World :=
  ("cuid" ++ toString w.nextId, { w with nextId := w.nextId + 1 })

/-- `orderBy: { sentAt: 'desc' }` over the broadcast recipients of the
tenant that target `phone`: the recipient with the greatest `sentAt`
(SQL `NULL` sorts last under `DESC`; ties keep the earlier row). -/
def findRecentRecipient (w : World) (phone orgId : String) : Option RecipientRec :=
  let matching := w.recipients.filter (fun r =>
    r.phoneNumber == phone &&
    w.broadcasts.any (fun b => b.id == r.broadcastId && b.organizationId == orgId))
  let key : RecipientRec → Int × Int := fun r =>
    match r.sentAt with
    | some t => (1, t)
    | none => (0, 0)
  let ltKey : Int × Int → Int × Int → Bool := fun a b =>
    decide (a.1 < b.1) || (a.1 == b.1 && decide (a.2 < b.2))
  matching.foldl (fun best r =>
    match best with
    | none => some r
    | some b => if ltKey (key b) (key r) then some r else best) none

/-- The find-or-create contact phase of `handleIncomingMessage`
(`prisma.contact.findFirst` on `(waId, organizationId)` then
`create`). -/
def upsertContact (w : World) (orgId waId : String) (contactInfo : Option String) :
    ContactRec × World :=
  match w.contacts.find? (fun c => c.waId == waId && c.organizationId == orgId) with
  | some c => (c, w)
  | none =>
      let (cid, w) := genId w
      let c : ContactRec :=
        { id := cid, waId := waId, organizationId := orgId,
          name := contactInfo, profileName := contactInfo, phoneNumber := waId }
      (c, { w with contacts := w.contacts ++ [c] })

/-- The find-or-create conversation phase of `handleIncomingMessage`,
including the recent-broadcast attribution on both the create path and
the not-yet-a-reply upgrade path. -/
def findOrOpenConversation (w : World) (orgId : String) (contact : ContactRec)
    (waId : String) : ConversationRec × World :=
  match w.conversations.find? (fun c =>
      c.contactId == contact.id && c.organizationId == orgId &&
      (c.status == .OPEN || c.status == .PENDING)) with
  | none =>
      let recent := findRecentRecipient w waId orgId
      let recentB : Option BroadcastRec := recent.bind (fun r => w.broadcasts.find? (fun b => b.id == r.broadcastId))
      let (vid, w) := genId w
      let conv : ConversationRec :=
        { id := vid, contactId := contact.id, organizationId := orgId,
          status := .OPEN, unreadCount := 0, lastMessageAt := none,
          lastMessagePreview := none,
          broadcastId := recentB.map (·.id),
          broadcastName := recentB.map (·.name),
          isReply := recent.isSome }
      let w := { w with conversations := w.conversations ++ [conv] }
      let w := match recentB with
        | some b => updBroadcast w b.id (fun bb => { bb with replyCount := bb.replyCount + 1 })
        | none => w
      (conv, w)
  | some conv =>
      if !conv.isReply then
        let recent := findRecentRecipient w waId orgId
        let recentB : Option BroadcastRec := recent.bind (fun r => w.broadcasts.find? (fun b => b.id == r.broadcastId))
        match recentB, conv.broadcastId with
        | some b, none =>
            let conv2 := { conv with broadcastId := some b.id,
                                     broadcastName := some b.name, isReply := true }
            let w := updConversation w conv.id (fun _ => conv2)
            let w := updBroadcast w b.id (fun bb => { bb with replyCount := bb.replyCount + 1 })
            (conv2, w)
        | _, _ => (conv, w)
      else (conv, w)

/-- `handleIncomingMessage(orgId, message, contactInfo)` from
`whatsappService`: upsert contact, find or open the conversation,
attribute a recent broadcast, persist the message (unique on the
provider message id — a duplicate makes `create` throw, aborting the
rest), bump the conversation preview and unread counter, and schedule
the chatbot unless the attributed broadcast disables it.  Push
notifications, socket emits and external forwarding change no
persistent state and are not modelled.  `contactInfo` is
`contacts?.[0]?.profile?.name`; `resolveMedia` is the `getMediaUrl`
HTTP oracle.  Returns the world and whether the call threw. -/
def handleIncomingMessage (w : World) (orgId : String) (m : InboundMessage)
    (contactInfo : Option String) (resolveMedia : String → String → Option String) :
    World × Bool :=
  let waId := m.fromNum
  let messageId := m.id
  let timestamp := m.timestamp * 1000
  -- find or create contact
  let (contact, w) : ContactRec × World := upsertContact w orgId waId contactInfo
  -- find or create conversation (with broadcast attribution)
  let (conversation, w) : ConversationRec × World :=
    findOrOpenConversation w orgId contact waId
  -- content extraction and lazy media resolution
  let messageType := getMessageType m.mtype
  let ec := extractMessageContent m
  let mediaUrl :=
    if !(ec.mediaId == "") &&
       (messageType == "IMAGE" || messageType == "VIDEO" ||
        messageType == "AUDIO" || messageType == "DOCUMENT") then
      match resolveMedia orgId ec.mediaId with
      | some url => url
      | none => ec.mediaUrl
    else ec.mediaUrl
  -- message.create: unique index on waMessageId; a duplicate throws and
  -- aborts everything after this point
  if w.messages.any (fun mm => mm.waMessageId == some messageId) then
    (w, true)
  else
    let (mid, w) := genId w
    let newMessage : MessageRec :=
      { id := mid, waMessageId := some messageId, conversationId := conversation.id,
        organizationId := orgId, mtype := messageType, content := ec.content,
        caption := some ec.caption, mediaUrl := some mediaUrl,
        mediaId := extractMediaId m, direction := .INCOMING,
        status := .DELIVERED, isRead := false, timestamp := timestamp,
        metadata := extractMetadata m }
    let w := { w with messages := w.messages ++ [newMessage] }
    -- conversation preview / unread counter
    let w := updConversation w conversation.id (fun c =>
      { c with lastMessageAt := some timestamp,
               lastMessagePreview := some (if ec.content == "" then "[" ++ m.mtype ++ "]"
                                           else ec.content.take 100),
               unreadCount := c.unreadCount + 1 })
    -- chatbot trigger (broadcast override)
    let shouldTrigger : Bool :=
      match conversation.broadcastId with
      | some bid =>
          match w.broadcasts.find? (fun b => b.id == bid) with
          | some b => b.enableChatbot
          | none => true
      | none => true
    let w :=
      if shouldTrigger then
        { w with chatbotCalls := w.chatbotCalls ++
            [{ organizationId := orgId, contactId := contact.id, waId := contact.waId,
               content := ec.content, messageId := newMessage.id }] }
      else w
    (w, false)

/-- The `value` object of a provider webhook change. -/
structure WebhookValue where
  phoneNumberId : Option String
  displayPhoneNumber : Option String
  contactProfileName : Option String
  messages : List InboundMessage
  statuses : List StatusEvent

/-- One entry of `entry[i].changes`. -/
structure WebhookChange where
  value : Option WebhookValue

/-- One `entry[i]` of the webhook envelope. -/
structure WebhookEntry where
  changes : List WebhookChange

/-- The webhook envelope body. -/
structure WebhookEnvelope where
  object : String
  entry : List WebhookEntry

/-- Sequential processing of the `messages` array: each entry is
awaited; a throw (duplicate provider message id) aborts the loop and
propagates. -/
def processMessages (w : World) (orgId : String) (ms : List InboundMessage)
    (contactInfo : Option String) (resolveMedia : String → String → Option String) : World :=
  match ms with
  | [] => w
  | m :: rest =>
      let (w1, threw) := handleIncomingMessage w orgId m contactInfo resolveMedia
      if threw then w1 else processMessages w1 orgId rest contactInfo resolveMedia

/-- `processIncomingMessage(webhookData, explicitOrgId)` from
`whatsappService`: resolve the tenant (explicit from the URL, else by
the envelope's phone-number id against an active organization), apply
the self-message loop-prevention filter, then fan the statuses out to
`handleMessageStatus` and the messages to `handleIncomingMessage`. -/
def processIncomingMessage (w : World) (value : Option WebhookValue)
    (explicitOrgId : Option String) (resolveMedia : String → String → Option String)
    (now : Int) : World :=
  match value with
  | none => w
  | some v =>
      let orgId? : Option String :=
        match explicitOrgId with
        | some oid => some oid
        | none =>
            match v.phoneNumberId with
            | none => none
            | some "" => none
            | some pnid =>
                (w.orgs.find? (fun o => o.phoneNumberId == some pnid && o.isActive)).map (·.id)
      match orgId? with
      | none => w
      | some orgId =>
          -- loop prevention: first message from the tenant's own display number
          let selfMessage :=
            match v.messages.head?, v.displayPhoneNumber with
            | some m0, some dpn => !(dpn == "") && m0.fromNum == dpn
            | _, _ => false
          if selfMessage then w
          else
            let w := v.statuses.foldl (fun acc st => handleMessageStatus acc orgId st now) w
            if v.messages.isEmpty then w
            else processMessages w orgId v.messages v.contactProfileName resolveMedia

/-- A webhook HTTP POST as the controller sees it: the tenant path
parameter, the `X-Hub-Signature-256` header, and the parsed JSON body
(`none` when the raw body is not valid JSON). -/
structure HttpRequest where
  orgIdParam : Option String
  signatureHeader : Option String
  body : Option WebhookEnvelope

/-- `webhookController.handleWebhook`: respond 200 immediately, check
`body.object`, and hand the envelope to `processIncomingMessage` in the
background.  The signature header is never consulted. -/
def handleWebhook (w : World) (req : HttpRequest)
    (resolveMedia : String → String → Option String) (now : Int) : World :=
  match req.body with
  | none => w
  | some body =>
      if !(body.object == "whatsapp_business_account") then w
      else
        let value := ((body.entry.head?).bind (fun e => e.changes.head?)).bind (·.value)
        processIncomingMessage w value req.orgIdParam resolveMedia now

/-! ## Flow interpreter (`chatbotService`) -/

/-- `s.includes(sub)` (substring test). -/
def strIncludes (s sub : String) : Bool :=
  decide (List.IsInfix sub.data s.data)

/-- Read a string-valued field of a node's untyped `data` object
(configuration fields are strings in the embedded universe). -/
def dataStr (d : VarBag) (k : String) : Option String :=
  match bagGet d k with
  | some (.str s) => some s
  | _ => none

/-- JavaScript truthiness of `node.data[k]`. -/
def dataTruthy (d : VarBag) (k : String) : Bool :=
  match bagGet d k with
  | some v => jsTruthy v
  | none => false

/-- Read an array-of-strings field (`node.data.keywords || []`). -/
def dataStrList (d : VarBag) (k : String) : List String :=
  match bagGet d k with
  | some (.arr xs) => xs.map jsToString
  | _ => []

/-- JavaScript `a || b` on a possibly-absent value. -/
def jsOr2 (a : Option JsVal) (b : JsVal) : JsVal :=
  match a with
  | some x => if jsTruthy x then x else b
  | none => b

/-- `edges.find(e => e.source === src)?.target`. -/
def edgeFrom (edges : List FlowEdge) (src : String) : Option String :=
  (edges.find? (fun e => e.source == src)).map (·.target)

/-- `edges.find(e => e.source === src && e.sourceHandle === h)?.target`. -/
def edgeHandle (edges : List FlowEdge) (src h : String) : Option String :=
  (edges.find? (fun e => e.source == src && e.sourceHandle == some h)).map (·.target)

/-- `edges.find(e => e.source === src && !e.sourceHandle)?.target`
(the default edge without a handle). -/
def edgeNoHandle (edges : List FlowEdge) (src : String) : Option String :=
  (edges.find? (fun e => e.source == src && e.sourceHandle == none)).map (·.target)

/-- `e.sourceHandle === 'default' || !e.sourceHandle` (the default
handle of a `start_trigger` node). -/
def edgeDefaultish (edges : List FlowEdge) (src : String) : Option String :=
  (edges.find? (fun e => e.source == src &&
    (e.sourceHandle == some "default" || e.sourceHandle == none))).map (·.target)

/-- Append a plain text send to the outbox. -/
def sendTextMsg (w : World) (orgId toPhone content : String) : World :=
  { w with outbox := w.outbox ++
      [{ organizationId := orgId, toPhone := toPhone, mtype := "text", content := content,
         caption := none, mediaUrl := none, templateName := none, templateLanguage := none,
         templateComponents := [], buttons := [], sections := [], footerText := none }] }

/-- Append an interactive button send to the outbox. -/
def sendButtonsMsg (w : World) (orgId toPhone content : String)
    (buttons : List (String × String)) (footerText : Option String) : World :=
  { w with outbox := w.outbox ++
      [{ organizationId := orgId, toPhone := toPhone, mtype := "interactive", content := content,
         caption := none, mediaUrl := none, templateName := none, templateLanguage := none,
         templateComponents := [], buttons := buttons, sections := [], footerText := footerText }] }

/-- Append an interactive list send to the outbox (`caption` carries the
menu title). -/
def sendListMsg (w : World) (orgId toPhone content : String) (menuTitle : String)
    (sections : List ListSection) (footerText : Option String) : World :=
  { w with outbox := w.outbox ++
      [{ organizationId := orgId, toPhone := toPhone, mtype := "interactive", content := content,
         caption := some menuTitle, mediaUrl := none, templateName := none, templateLanguage := none,
         templateComponents := [], buttons := [], sections := sections, footerText := footerText }] }

/-- The `wait` node's `expectedType` validation against the inbound
message type. -/
def waitInputValid (expectedType actualType : String) : Bool :=
  if expectedType == "any" then true
  else if expectedType == "text" && actualType == "text" then true
  else if expectedType == "image" && actualType == "image" then true
  else if expectedType == "document" && actualType == "document" then true
  else if expectedType == "audio" && actualType == "audio" then true
  else if expectedType == "video" && actualType == "video" then true
  else if expectedType == "file" &&
    (actualType == "image" || actualType == "video" ||
     actualType == "audio" || actualType == "document") then true
  else false

/-- `parseInt(variables['_list_page'] || '0')`: the field only ever
holds canonical decimal numerals written by the pagination handler;
other shapes are modelled as page 0. -/
def parseListPage (vars : VarBag) : Nat :=
  match bagGet vars "_list_page" with
  | some (.str s) => (jsToNat s).getD 0
  | _ => 0

/-- One rendered row of a dynamic list node for `item` at offset
`startIdx + idx`: titles fall back `item.title || item.name ||
"Item N"`, row ids fall back `item.id || item.sku || "row_K"` with `K`
the item's absolute index, so an item keeps its id on every page. -/
def dynamicRow (startIdx idx : Nat) (item : JsVal) : ListRow :=
  match item with
  | .obj fields =>
      let title := jsToString (jsOr2 (bagGet fields "title") (jsOr2 (bagGet fields "name")
        (.str ("Item " ++ toString (startIdx + idx + 1)))))
      let rId := jsToString (jsOr2 (bagGet fields "id") (jsOr2 (bagGet fields "sku")
        (.str ("row_" ++ toString (startIdx + idx)))))
      let description := jsToString (jsOr2 (bagGet fields "description")
        (jsOr2 (bagGet fields "price") (.str "")))
      { id := rId, title := title.take 24, description := description.take 72 }
  | .arr _ =>
      { id := "row_" ++ toString (startIdx + idx),
        title := ("Item " ++ toString (startIdx + idx + 1)).take 24, description := "" }
  | other =>
      { id := "row_" ++ toString (startIdx + idx),
        title := (jsToString other).take 24, description := "" }

/-- The dynamic-array branch of the `list` node: slice the current page
of 9 items, render its rows, and append the synthetic `__next` /
`__prev` pagination rows.  Returns the rows and the valid selection
ids. -/
def buildDynamicListRows (rawArray : List JsVal) (page : Nat) : List ListRow × List String :=
  let itemsPerPage := 9
  let startIdx := page * itemsPerPage
  let endIdx := startIdx + itemsPerPage
  let currentItems := (rawArray.drop startIdx).take itemsPerPage
  let rows := currentItems.enum.map (fun p => dynamicRow startIdx p.1 p.2)
  let ids := rows.map (·.id)
  let (rows, ids) :=
    if endIdx < rawArray.length then
      (rows ++ [{ id := "__next", title := "Next ➡️", description := "See more options" }],
       ids ++ ["__next"])
    else (rows, ids)
  if page > 0 then
    (rows ++ [{ id := "__prev", title := "⬅️ Back", description := "See previous options" }],
     ids ++ ["__prev"])
  else (rows, ids)

/-- An inline (`node.data.sections`) list section: rows keep their
configured ids (the source substitutes a random id when one is missing;
inline rows in the embedded universe always carry ids, modelled by the
constant fallback). -/
def inlineSection (sec : JsVal) : ListSection × List String :=
  match sec with
  | .obj f =>
      let rowsRaw := match bagGet f "rows" with
        | some (.arr rs) => rs
        | _ => []
      let rows := rowsRaw.map (fun r =>
        match r with
        | .obj rf =>
            let rId := strOr (dataStr rf "id") "row_random"
            ({ id := rId,
               title := (strOr (dataStr rf "title") "").take 24,
               description := (match dataStr rf "description" with
                 | some d => if d == "" then "" else d.take 72
                 | none => "") } : ListRow)
        | _ => ({ id := "row_random", title := "", description := "" } : ListRow))
      (⟨strOr (dataStr f "title") "", rows⟩, rows.map (·.id))
  | _ => (⟨"", []⟩, [])

/-- The context threaded through one interpreter invocation. -/
structure ExecCtx where
  sessionId : String
  organizationId : String
  waId : String
  nodes : List FlowNode
  edges : List FlowEdge
  lastInput : String
  inputData : MessageRec
  now : Int

/-- How the node loop ended: it fell out of the `while` (no current
node, node lookup failure, or the 30-step cap), or a node case
`return`ed after persisting or deleting the session itself. -/
inductive LoopExit where
  | fellThrough (vars : VarBag) (cur : Option String)
  | returned

/-- Result of the node loop: final world, exit kind, and the number of
loop iterations executed. -/
structure LoopResult where
  world : World
  exit : LoopExit
  steps : Nat

/-- Build the sections and valid ids of a `list` node (dynamic-array
branch first, inline sections as fallback; the Google-Sheets branch is
outside the embedded universe — list nodes carry no `sheetUrl`). -/
def buildListSections (node : FlowNode) (vars : VarBag) : List ListSection × List String :=
  let dyn : List ListRow × List String :=
    if dataTruthy node.data "dynamicArray" then
      let arrayVar := jsTrimStr (strOr (dataStr node.data "dynamicArray") "")
      match bagGet vars arrayVar with
      | some (.arr xs) => buildDynamicListRows xs (parseListPage vars)
      | _ => ([], [])
    else ([], [])
  if dyn.1.isEmpty then
    let secsRaw := match bagGet node.data "sections" with
      | some (.arr ss) => ss
      | _ => []
    let converted := secsRaw.map inlineSection
    (converted.map (·.1), (converted.map (·.2)).flatten)
  else
    ([⟨"Options", dyn.1⟩], dyn.2)

/-- Outcome of one execution of the node `switch`: either the case fell
through / `continue`d with a new current node id (the loop keeps
going), or the case `return`ed after persisting or deleting the session
itself. -/
inductive NodeStep where
  | continueTo (w : World) (vars : VarBag) (next : Option String)
  | halt (w : World)

/-- One execution of the node `switch` from `executeFlow`.  Node types
outside the modelled universe take the `default` branch (warn and
follow the first outgoing edge), as the source does for unknown type
strings. -/
def execNode (ctx : ExecCtx) (w : World) (vars : VarBag) (node : FlowNode) : NodeStep :=
        let tail := fun (w : World) (vars : VarBag) =>
          NodeStep.continueTo w vars (edgeFrom ctx.edges node.id)
        let jump := fun (w : World) (vars : VarBag) (next : Option String) =>
          NodeStep.continueTo w vars next
        if node.ntype == "session_config" then
          let vars :=
            match bagGet node.data "timeout" with
            | some (.num t) => if t == 0 then vars else bagSet vars "_session_timeout" (.num (t * 3600))
            | _ => vars
          let vars :=
            if dataTruthy node.data "clearVariables" then
              bagSet vars "_clear_variables_on_restart" (.boolv true)
            else vars
          tail w vars
        else if node.ntype == "variable" then
          let vars :=
            match dataStr node.data "variableName" with
            | some vn =>
                if vn == "" then vars
                else
                  let varName := jsTrimStr vn
                  let val := strOr (dataStr node.data "value") ""
                  let resolved := replaceVariables val vars
                  let needsRescue :=
                    (val == "") ||
                    ((strIncludes val "last_input" || strIncludes val "last_response") &&
                      (resolved == "" || resolved == val)) ||
                    (jsTrimStr resolved == "")
                  if needsRescue then
                    let rescued := jsOr2 (bagGet vars "last_input")
                      (jsOr2 (bagGet vars "selected_button")
                        (jsOr2 (bagGet vars "selected_list_title") (.str "")))
                    if jsTruthy rescued then bagSet vars varName rescued
                    else bagSet vars varName (.str resolved)
                  else bagSet vars varName (.str resolved)
            | none => vars
          tail w vars
        else if node.ntype == "list_variable" then
          let vars :=
            match dataStr node.data "variableName" with
            | some vn =>
                if vn == "" then vars
                else
                  let items := (jsSplit (strOr (dataStr node.data "items") "") '\n').map
                    (fun s => jsTrimStr s) |>.filter (fun s => !(s == ""))
                  bagSet vars (jsTrimStr vn) (.arr (items.map .str))
            | none => vars
          tail w vars
        else if node.ntype == "message" || node.ntype == "text" then
          let w := sendTextMsg w ctx.organizationId ctx.waId
            (replaceVariables (strOr (dataStr node.data "message") "") vars)
          tail w vars
        else if node.ntype == "button" then
          let mkBtn := fun (i : Nat) =>
            match dataStr node.data ("btn" ++ toString i ++ "Title") with
            | some t =>
                if t == "" then []
                else [(strOr (dataStr node.data ("btn" ++ toString i ++ "Id")) ("btn_" ++ toString i),
                       t.take 20)]
            | none => []
          let buttons := mkBtn 0 ++ mkBtn 1 ++ mkBtn 2
          let w := sendButtonsMsg w ctx.organizationId ctx.waId
            (replaceVariables (strOr (dataStr node.data "headerMessage") "Please choose:") vars)
            buttons
            (match dataStr node.data "footerMessage" with
             | some f => if f == "" then none else some (replaceVariables f vars)
             | none => none)
          let vars := bagSet vars "_pendingButtons" (.arr (buttons.map (fun b => .str b.1)))
          let vars := bagSet vars "_buttonNodeId" (.str node.id)
          let vars := bagSet vars "_retryOnInvalid"
            (match bagGet node.data "retryOnInvalid" with
             | some v => if jsTruthy v then v else .boolv false
             | none => .boolv false)
          let vars := bagSet vars "_fallbackMessage"
            (.str (strOr (dataStr node.data "fallbackMessage") "Invalid option. Please try again."))
          let w := updSession w ctx.sessionId (fun s =>
            { s with currentNodeId := some node.id, vars := vars })
          NodeStep.halt w
        else if node.ntype == "list" then
          let built := buildListSections node vars
          let w := sendListMsg w ctx.organizationId ctx.waId
            (replaceVariables (strOr (dataStr node.data "body") "Please choose:") vars)
            (strOr (dataStr node.data "menuTitle") "Options")
            built.1
            (dataStr node.data "footer")
          let vars := bagSet vars "_pendingListIds" (.arr (built.2.map .str))
          let vars := bagSet vars "_buttonNodeId" (.str node.id)
          let vars := bagSet vars "_retryOnInvalid"
            (match bagGet node.data "retryOnInvalid" with
             | some v => if jsTruthy v then v else .boolv false
             | none => .boolv false)
          let vars := bagSet vars "_fallbackMessage"
            (.str (strOr (dataStr node.data "fallbackMessage") "Invalid selection. Please try again."))
          let w := updSession w ctx.sessionId (fun s =>
            { s with currentNodeId := some node.id, vars := vars })
          NodeStep.halt w
        else if node.ntype == "start_trigger" then
          let triggerMode := strOr (dataStr node.data "triggerMode") "any"
          let keywords := dataStrList node.data "keywords"
          let (vars, next) :=
            if triggerMode == "keywords" && keywords.length > 0 then
              let caseSensitive := dataTruthy node.data "caseSensitive"
              let userMessage := jsToLowerStr (jsTrimStr ctx.lastInput)
              let compareText := if caseSensitive then jsTrimStr ctx.lastInput else userMessage
              let partialMatch := dataTruthy node.data "partialMatch"
              let matched := (keywords.enum.find? (fun p =>
                let kw := if caseSensitive then p.2 else jsToLowerStr p.2
                if partialMatch then strIncludes compareText kw else compareText == kw))
              match matched with
              | some p =>
                  (bagSet vars "matched_keyword" (.str p.2),
                   match edgeHandle ctx.edges node.id ("kw_" ++ toString p.1) with
                   | some t => some t
                   | none => edgeDefaultish ctx.edges node.id)
              | none => (vars, edgeDefaultish ctx.edges node.id)
            else
              (bagSet vars "matched_keyword" (.str ctx.lastInput),
               edgeDefaultish ctx.edges node.id)
          match next with
          | some t => jump w vars (some t)
          | none => tail w vars
        else if node.ntype == "delay" then
          tail w vars
        else if node.ntype == "wait" then
          let w := updSession w ctx.sessionId (fun s =>
            { s with currentNodeId := some node.id, vars := vars })
          NodeStep.halt w
        else if node.ntype == "condition" then
          let field := strOr (dataStr node.data "field") ""
          let actual := replaceVariables ("\x7b\x7b" ++ field ++ "\x7d\x7d") vars
          let expected := replaceVariables (strOr (dataStr node.data "value") "") vars
          let op := strOr (dataStr node.data "operator") "equals"
          let a := jsTrimStr (jsToLowerStr actual)
          let e := jsTrimStr (jsToLowerStr expected)
          let isMatch :=
            if op == "equals" then a == e
            else if op == "contains" then strIncludes a e
            else if op == "not_equals" then !(a == e)
            else if op == "exists" then
              !(actual == "") && !(actual == "\x7b\x7b" ++ field ++ "\x7d\x7d")
            else false
          jump w vars (edgeHandle ctx.edges node.id (if isMatch then "true" else "false"))
        else if node.ntype == "loop" then
          let indexKey := "_loop_idx_" ++ node.id
          let arrVar := strOr (dataStr node.data "arrayVariable") "items"
          let itemVar := strOr (dataStr node.data "currentItemVariable") "item"
          let list := match bagGet vars arrVar with
            | some (.arr xs) => xs
            | _ => []
          let idx : Int := match bagGet vars indexKey with
            | some (.num n) => n
            | _ => 0
          if idx < (list.length : Int) then
            let vars := bagSet vars itemVar (list.getD idx.toNat .nullv)
            let vars := bagSet vars indexKey (.num (idx + 1))
            jump w vars (edgeHandle ctx.edges node.id "loop")
          else
            let vars := bagDel vars indexKey
            jump w vars (edgeHandle ctx.edges node.id "done")
        else
          tail w vars

/-- The loop control around the node switch (`while (currentNodeId &&
steps < 30)` with `steps++` at the top of the body); structurally
recursive on the remaining fuel. -/
def execLoop (ctx : ExecCtx) (w : World) (vars : VarBag) (cur : Option String) :
    Nat → LoopResult
  | 0 => ⟨w, .fellThrough vars cur, 0⟩
  | fuel + 1 =>
    match cur with
    | none => ⟨w, .fellThrough vars none, 0⟩
    | some cid =>
      match ctx.nodes.find? (fun n => n.id == cid) with
      | none => ⟨w, .fellThrough vars (some cid), 1⟩
      | some node =>
        match execNode ctx w vars node with
        | .halt w => ⟨w, .returned, 1⟩
        | .continueTo w vars next =>
          let r := execLoop ctx w vars next fuel
          ⟨r.world, r.exit, r.steps + 1⟩

/-- The resume handlers at the top of `executeFlow` either return early
(wait-node invalid input under retry) or hand updated state to the node
loop. -/
inductive ResumeOutcome where
  | earlyReturn (w : World)
  | proceed (w : World) (vars : VarBag) (cur : Option String)

/-- The preamble of `executeFlow` from `chatbotService`: inject the
system variables, resolve the entry node, and interpret the inbound
event against a suspended `wait` / `button` / `list` / `flow` node;
either returns early (wait-node invalid input under retry, which
persists only `lastInteraction`) or hands the updated state to the node
loop. -/
def executeFlowResume (w : World) (session : SessionRec) (flow : FlowRec)
    (contact : Option ContactRec) (waId lastInput : String) (inputData : MessageRec)
    (now : Int) : ResumeOutcome :=
  let nodes := flow.nodes
  let edges := flow.edges
  let vars := session.vars
  let vars := bagSet vars "sender_mobile" (.str waId)
  let vars := match contact with
    | some ct => bagSet vars "sender_name" (.str (strOr ct.name (strOr ct.profileName "Customer")))
    | none => vars
  let actualType := jsToLowerStr (if inputData.mtype == "" then "text" else inputData.mtype)
  let resolvedInput :=
    if actualType == "interactive" && lastInput == "" then
      match inputData.metadata with
      | some (.buttonReply _ title) => title
      | some (.listReply _ title) => title
      | _ => lastInput
    else lastInput
  let lastInputVal : JsVal :=
    if actualType == "text" || actualType == "interactive" then .str resolvedInput
    else .str (strOr inputData.caption ("[" ++ jsToUpperStr actualType ++ "]"))
  let vars :=
    if actualType == "text" || actualType == "interactive" then
      bagSet vars "last_input" lastInputVal
    else
      let v := bagSet vars "last_input" lastInputVal
      let v := bagSet v "last_media_url" (.str (inputData.mediaUrl.getD ""))
      bagSet v "last_media_id" (.str (inputData.mediaId.getD ""))
  let vars := bagSet vars "last_response" lastInputVal
  let vars := bagSet vars "last_message_type" (.str actualType)
  let cur : Option String :=
    if session.currentNodeId == some "start" then
      match nodes.find? (fun n => n.ntype == "start_trigger") with
      | some st => some st.id
      | none =>
          match edges.find? (fun e => e.source == "start") with
          | some e => some e.target
          | none =>
              (nodes.find? (fun n =>
                !(n.id == "start") && !(edges.any (fun e => e.target == n.id)))).map (·.id)
    else session.currentNodeId
  let currentNode : Option FlowNode := match cur with
    | some cid => nodes.find? (fun n => n.id == cid)
    | none => none
  -- wait-node resumption
  let afterWait : ResumeOutcome :=
    match currentNode with
    | some node =>
        if node.ntype == "wait" then
          let expectedType := strOr (dataStr node.data "expectedType") "text"
          if !(waitInputValid expectedType actualType) && dataTruthy node.data "retryOnInvalid" then
            let errMsg := strOr (dataStr node.data "errorMessage")
              "Invalid content. Please upload the correct format."
            let w := sendTextMsg w session.organizationId waId (replaceVariables errMsg vars)
            let w := updSession w session.id (fun s => { s with lastInteraction := now })
            .earlyReturn w
          else
            let varName := strOr (dataStr node.data "variable") "last_input"
            let vars :=
              if actualType == "text" || actualType == "interactive" then
                bagSet vars varName (.str resolvedInput)
              else
                let v := bagSet vars varName
                  (.str (strOr inputData.caption ("[" ++ jsToUpperStr actualType ++ "]")))
                let v := bagSet v (varName ++ "_url") (.str (inputData.mediaUrl.getD ""))
                let v := bagSet v (varName ++ "_id") (.str (inputData.mediaId.getD ""))
                match inputData.caption with
                | some c => if c == "" then v else bagSet v (varName ++ "_caption") (.str c)
                | none => v
            let vars := bagSet vars "last_message_type" (.str actualType)
            .proceed w vars (edgeFrom edges node.id)
        else .proceed w vars cur
    | none => .proceed w vars cur
  -- button-node resumption
  let afterButton : ResumeOutcome :=
    match afterWait with
    | .earlyReturn w => .earlyReturn w
    | .proceed w vars cur =>
        match currentNode with
        | some node =>
            if node.ntype == "button" &&
               (match bagGet vars "_pendingButtons" with
                | some v => jsTruthy v
                | none => false) then
              let pendingButtons := match bagGet vars "_pendingButtons" with
                | some (.arr xs) => xs.map jsToString
                | _ => []
              let userSelection := jsToLowerStr (jsTrimStr lastInput)
              let btnMatches := fun (i : Nat) =>
                ((dataStr node.data ("btn" ++ toString i ++ "Id")).map
                    (fun s => jsToLowerStr s) == some userSelection) ||
                ((dataStr node.data ("btn" ++ toString i ++ "Title")).map
                    (fun s => jsToLowerStr s) == some userSelection) ||
                ((pendingButtons[i]?).map (fun s => jsToLowerStr s) == some userSelection)
              let matchedIdx : Option Nat :=
                if btnMatches 0 then some 0
                else if btnMatches 1 then some 1
                else if btnMatches 2 then some 2
                else none
              match matchedIdx with
              | some i =>
                  let matchedTitle := dataStr node.data ("btn" ++ toString i ++ "Title")
                  let matchedId := dataStr node.data ("btn" ++ toString i ++ "Id")
                  let vars := match matchedTitle with
                    | some t => bagSet vars "selected_button" (.str t)
                    | none => vars
                  let vars := match matchedId with
                    | some idv => bagSet vars "selected_button_id" (.str idv)
                    | none => vars
                  let vars := match dataStr node.data "variable" with
                    | some v =>
                        if v == "" then vars
                        else match matchedTitle with
                          | some t => bagSet vars (jsTrimStr v) (.str t)
                          | none => vars
                    | none => vars
                  let next :=
                    match edgeHandle edges node.id ("btn" ++ toString i) with
                    | some t => some t
                    | none => edgeNoHandle edges node.id
                  let vars := bagDel (bagDel (bagDel (bagDel vars "_pendingButtons")
                    "_buttonNodeId") "_retryOnInvalid") "_fallbackMessage"
                  .proceed w vars next
              | none =>
                  if (match bagGet vars "_retryOnInvalid" with
                      | some v => jsTruthy v
                      | none => false) then
                    let w := sendTextMsg w session.organizationId waId
                      (match bagGet vars "_fallbackMessage" with
                       | some (.str s) => s
                       | _ => "")
                    .proceed w vars cur
                  else
                    let next := edgeNoHandle edges node.id
                    let vars := bagDel vars "_pendingButtons"
                    .proceed w vars next
            else .proceed w vars cur
        | none => .proceed w vars cur
  -- list-node resumption
  let afterList : ResumeOutcome :=
    match afterButton with
    | .earlyReturn w => .earlyReturn w
    | .proceed w vars cur =>
        match currentNode with
        | some node =>
            if node.ntype == "list" &&
               (match bagGet vars "_pendingListIds" with
                | some v => jsTruthy v
                | none => false) then
              let userSelection := jsTrimStr lastInput
              let (matchedId0, matchedTitle0) : Option String × Option String :=
                match inputData.metadata with
                | some (.listReply rid rtitle) => (some rid, some rtitle)
                | _ => (none, none)
              let (matchedId1, matchedTitle1) : Option String × Option String :=
                match matchedId0 with
                | some _ => (matchedId0, matchedTitle0)
                | none =>
                    let secList : List JsVal :=
                      match bagGet node.data "sections" with
                      | some (.arr ss) => ss
                      | _ => []
                    let rowsFound := secList.findSome? (fun sec =>
                        match sec with
                        | .obj f =>
                            let rowList : List JsVal :=
                              match bagGet f "rows" with
                              | some (.arr rs) => rs
                              | _ => []
                            rowList.findSome? (fun r =>
                              match r with
                              | .obj rf =>
                                  let rid := strOr (dataStr rf "id") ""
                                  let rtitle := strOr (dataStr rf "title") ""
                                  if rid == userSelection ||
                                     jsToLowerStr rtitle == jsToLowerStr userSelection then
                                    some (rid, rtitle)
                                  else none
                              | _ => none)
                        | _ => none)
                    match rowsFound with
                    | some (rid, rtitle) => (some rid, some rtitle)
                    | none => (none, none)
              let matchedId2 :=
                match matchedId1 with
                | some m => some m
                | none =>
                    let m1 := if strIncludes (jsToLowerStr userSelection) "next" ||
                                 strIncludes userSelection "➡️" then some "__next" else none
                    if strIncludes (jsToLowerStr userSelection) "back" ||
                       strIncludes userSelection "⬅️" then some "__prev" else m1
              if matchedId2 == some "__next" then
                let page := parseListPage vars + 1
                let vars := bagSet vars "_list_page" (.str (toString page))
                .proceed w vars (some node.id)
              else if matchedId2 == some "__prev" then
                let page := parseListPage vars - 1
                let vars := bagSet vars "_list_page" (.str (toString page))
                .proceed w vars (some node.id)
              else
                let pendingIds := match bagGet vars "_pendingListIds" with
                  | some (.arr xs) => xs.map jsToString
                  | _ => []
                let accepted :=
                  match matchedId2 with
                  | some m => if pendingIds.contains m then some m else none
                  | none => none
                match accepted with
                | some m =>
                    let vars := bagSet vars "selected_list_id" (.str m)
                    let vars := bagSet vars "selected_list_title"
                      (.str (strOr matchedTitle1 userSelection))
                    let vars := match dataStr node.data "variable" with
                      | some v =>
                          if v == "" then vars
                          else bagSet vars (jsTrimStr v) (.str (strOr matchedTitle1 userSelection))
                      | none => vars
                    let next :=
                      match edgeHandle edges node.id m with
                      | some t => some t
                      | none => edgeNoHandle edges node.id
                    let vars := bagDel (bagDel (bagDel (bagDel (bagDel vars "_pendingListIds")
                      "_buttonNodeId") "_retryOnInvalid") "_fallbackMessage") "_list_page"
                    .proceed w vars next
                | none =>
                    if (match bagGet vars "_retryOnInvalid" with
                        | some v => jsTruthy v
                        | none => false) then
                      let w := sendTextMsg w session.organizationId waId
                        (match bagGet vars "_fallbackMessage" with
                         | some (.str s) => s
                         | _ => "")
                      .proceed w vars cur
                    else
                      let next := edgeNoHandle edges node.id
                      let vars := bagDel vars "_pendingListIds"
                      .proceed w vars next
            else .proceed w vars cur
        | none => .proceed w vars cur
  -- flow-node (Meta Flow form) resumption
  let afterFlow : ResumeOutcome :=
    match afterList with
    | .earlyReturn w => .earlyReturn w
    | .proceed w vars cur =>
        match currentNode with
        | some node =>
            if node.ntype == "flow" &&
               (match bagGet vars "_waiting_flow" with
                | some v => jsTruthy v
                | none => false) then
              match inputData.metadata with
              | some (.nfmReply fields) =>
                  let vars := fields.foldl (fun v p => bagSet v p.1 p.2) vars
                  let vars := bagDel vars "_waiting_flow"
                  .proceed w vars (edgeFrom edges node.id)
              | _ => .proceed w vars cur
            else .proceed w vars cur
        | none => .proceed w vars cur
  afterFlow

/-- The `ExecCtx` of one invocation. -/
def executeFlowCtx (session : SessionRec) (flow : FlowRec) (waId lastInput : String)
    (inputData : MessageRec) (now : Int) : ExecCtx :=
  { sessionId := session.id, organizationId := session.organizationId,
    waId := waId, nodes := flow.nodes, edges := flow.edges, lastInput := lastInput,
    inputData := inputData, now := now }

/-- `executeFlow(session, waId, lastInput, inputData)` from
`chatbotService`: run the resume preamble, then the node loop (step cap
30); afterwards delete the session when no current node remains (the
flow finished) or persist the current node id and variable bag (cap hit
or node lookup failure).  Returns the world and the number of loop
iterations executed (an observation for the termination claim). -/
def executeFlow (w : World) (session : SessionRec) (flow : FlowRec)
    (contact : Option ContactRec) (waId lastInput : String) (inputData : MessageRec)
    (now : Int) : World × Nat :=
  match executeFlowResume w session flow contact waId lastInput inputData now with
  | .earlyReturn w => (w, 0)
  | .proceed w vars cur =>
      let r := execLoop (executeFlowCtx session flow waId lastInput inputData now) w vars cur 30
      match r.exit with
      | .returned => (r.world, r.steps)
      | .fellThrough vars cur =>
          match cur with
          | none =>
              let w2 := { r.world with
                sessions := r.world.sessions.filter (fun s => !(s.id == session.id)) }
              (w2, r.steps)
          | some cid =>
              (updSession r.world session.id (fun s =>
                { s with currentNodeId := some cid, vars := vars }), r.steps)

/-- `orderBy: { isDefault: 'desc' }` + `findFirst`: the first matching
flow preferring default flows (stable within each group). -/
def findFlowOrdered (w : World) (p : FlowRec → Bool) : Option FlowRec :=
  match (w.flows.filter p).find? (·.isDefault) with
  | some f => some f
  | none => (w.flows.filter p).head?

/-- The `start_trigger` scan of `processChatbotFlow`'s fallback: walk
the tenant's active flows (defaults first) and pick the first whose
`start_trigger` node accepts any message or matches a keyword under its
case/partial rules. -/
def scanStartTrigger (messageText : String) : List FlowRec → Option FlowRec
  | [] => none
  | f :: rest =>
      match f.nodes.find? (fun n => n.ntype == "start_trigger") with
      | none => scanStartTrigger messageText rest
      | some st =>
          let triggerMode := strOr (dataStr st.data "triggerMode") "any"
          if triggerMode == "any" then some f
          else if triggerMode == "keywords" then
            let keywords := dataStrList st.data "keywords"
            let caseSensitive := dataTruthy st.data "caseSensitive"
            let partialMatch := dataTruthy st.data "partialMatch"
            let userMessage := if caseSensitive then jsTrimStr messageText
                               else jsToLowerStr (jsTrimStr messageText)
            let hit := keywords.any (fun kw =>
              let compareKeyword := if caseSensitive then kw else jsToLowerStr kw
              if partialMatch then strIncludes userMessage compareKeyword
              else userMessage == compareKeyword)
            if hit then some f else scanStartTrigger messageText rest
          else scanStartTrigger messageText rest

/-- The fallback flow selection of `processChatbotFlow`: the catch-all
`*` trigger (defaults first), else the `start_trigger` scan over the
tenant's active flows (defaults first), else the tenant default flow. -/
def resolveFallbackFlow (w : World) (orgId messageText : String) : Option FlowRec :=
  let fallback0 := findFlowOrdered w (fun f =>
    f.organizationId == orgId && f.isActive && f.triggerKeyword == some "*")
  let fallback1 :=
    match fallback0 with
    | some f => some f
    | none =>
        let actives := w.flows.filter (fun f => f.organizationId == orgId && f.isActive)
        let ordered := actives.filter (fun f => f.isDefault) ++ actives.filter (fun f => !f.isDefault)
        scanStartTrigger messageText ordered
  match fallback1 with
  | some f => some f
  | none => w.flows.find? (fun f => f.organizationId == orgId && f.isActive && f.isDefault)

/-- Resolution of the session (and possibly updated world) for one
chatbot invocation, before the fallback chain: `inl` carries the
session to execute (or `none` when the fallback chain should run),
`inr` a world to return unchanged-by-the-rest. -/
def resolveEntrySession (w : World) (orgId contactId messageText : String) (now : Int) :
    Option (SessionRec × World) ⊕ World :=
  let triggeredFlow := findFlowOrdered w (fun f =>
    f.organizationId == orgId && f.isActive &&
    f.triggerKeyword == some (jsToUpperStr (jsTrimStr messageText)))
  let session0 := w.sessions.find? (fun s =>
    s.contactId == contactId && s.organizationId == orgId)
  match triggeredFlow with
  | some tf =>
      match session0 with
      | some s =>
          if !(s.flowId == tf.id) then
            let s2 := { s with flowId := tf.id, currentNodeId := some "start",
                               vars := [], lastInteraction := now }
            Sum.inl (some (s2, updSession w s.id (fun _ => s2)))
          else
            let s2 := { s with currentNodeId := some "start", lastInteraction := now }
            Sum.inl (some (s2, updSession w s.id (fun _ => s2)))
      | none =>
          let (sid, w2) := genId w
          let s : SessionRec :=
            { id := sid, currentNodeId := some "start", vars := [],
              lastInteraction := now, flowId := tf.id, contactId := contactId,
              organizationId := orgId }
          Sum.inl (some (s, { w2 with sessions := w2.sessions ++ [s] }))
  | none =>
      match session0 with
      | some s =>
          let flowRec := w.flows.find? (fun f => f.id == s.flowId)
          let fallbackTimeout : Int :=
            match flowRec with
            | some f => if f.sessionTimeout == 0 then 3600 else f.sessionTimeout
            | none => 3600
          let timeout : Int :=
            match bagGet s.vars "_session_timeout" with
            | some (.num t) => if t == 0 then fallbackTimeout else t
            | _ => fallbackTimeout
          if now - s.lastInteraction > timeout * 1000 then
            Sum.inl none
          else
            let s2 := { s with lastInteraction := now }
            Sum.inl (some (s2, updSession w s.id (fun _ => s2)))
      | none => Sum.inl none

/-- Run `executeFlow` for a resolved session (looking its flow and
contact up, as the Prisma `include` does). -/
def runSessionFlow (w : World) (session : SessionRec) (contactId waId messageText : String)
    (messageData : MessageRec) (now : Int) : World :=
  match w.flows.find? (fun f => f.id == session.flowId) with
  | none => w
  | some flow =>
      let contact := w.contacts.find? (fun c => c.id == contactId)
      (executeFlow w session flow contact waId messageText messageData now).1

/-- `processChatbotFlow(orgId, contactId, waId, messageText,
messageData)` from `chatbotService`: exact trigger-keyword match first
(switching or resetting an existing session), else the active session
(expired sessions are abandoned in memory but their row is kept), else
the fallback chain (catch-all `*` trigger, `start_trigger` scan,
tenant default) which alone is gated by the flow's working hours.
Creating a fallback session while a stale row still exists violates the
`(contactId, organizationId)` unique index: the throw is swallowed by
the function's catch-all and nothing further runs.  `now` is epoch
milliseconds; `day`/`hour` the local weekday and hour. -/
def processChatbotFlow (w : World) (orgId contactId waId messageText : String)
    (messageData : MessageRec) (now : Int) (day : Nat) (hour : Int) : World :=
  match resolveEntrySession w orgId contactId messageText now with
  | .inr w2 => w2
  | .inl (some (session, w2)) =>
      runSessionFlow w2 session contactId waId messageText messageData now
  | .inl none =>
      match resolveFallbackFlow w orgId messageText with
      | none => w
      | some ff =>
          if (match ff.workingHours with
              | some parsed => !(checkWorkingHours parsed day hour)
              | none => false) then w
          else if w.sessions.any (fun s =>
              s.contactId == contactId && s.organizationId == orgId) then w
          else
            let (sid, w2) := genId w
            let s : SessionRec :=
              { id := sid, currentNodeId := some "start", vars := [],
                lastInteraction := now, flowId := ff.id, contactId := contactId,
                organizationId := orgId }
            let w3 := { w2 with sessions := w2.sessions ++ [s] }
            runSessionFlow w3 s contactId waId messageText messageData now

/-- The node types whose `switch` cases the embedding implements; flows
in the embedded universe use only these (plus absent `sheetUrl` on list
nodes), so the `default` branch of `execLoop` coincides with the
source's `default`. -/
def modelledNodeTypes : List String :=
  ["session_config", "variable", "list_variable", "message", "text", "button", "list",
   "start_trigger", "delay", "wait", "condition", "loop"]

/-- A flow node the embedding models exactly. -/
def nodeModelled (n : FlowNode) : Prop :=
  n.ntype ∈ modelledNodeTypes ∧ (n.ntype = "list" → bagGet n.data "sheetUrl" = none)

/-! ## Concrete fixtures used by counterexamples and witnesses -/

/-- A tenant. -/
def org1 : OrgRec :=
  { id := "org1", phoneNumberId := some "pn1", isActive := true }

/-- A world with one active tenant and empty stores. -/
def emptyWorld : World where
  orgs := [org1]
  contacts := []
  conversations := []
  messages := []
  broadcasts := []
  recipients := []
  flows := []
  sessions := []
  outbox := []
  chatbotCalls := []
  nextId := 0

/-- An inbound text message entry with the given sender, provider
message id and body. -/
def mkTextInbound (fromNum id body : String) : InboundMessage where
  fromNum := fromNum
  id := id
  timestamp := 100
  mtype := "text"
  textBody := some body
  imageId := none
  imageCaption := none
  videoId := none
  videoCaption := none
  audioId := none
  documentId := none
  documentCaption := none
  documentFilename := none
  stickerId := none
  locationLatitude := none
  locationLongitude := none
  contactsName := none
  orderItemCount := none
  interactive := none
  buttonText := none

/-- A media-resolution oracle that always fails (text-only scenarios
never consult it). -/
def noMedia : String → String → Option String := fun _ _ => none

/-- An outgoing message row already marked `READ`. -/
def msgC1 : MessageRec where
  id := "m1"
  waMessageId := some "p1"
  conversationId := "c1"
  organizationId := "org1"
  mtype := "TEXT"
  content := "hello"
  caption := none
  mediaUrl := none
  mediaId := none
  direction := .OUTGOING
  status := .READ
  isRead := true
  timestamp := 0
  metadata := none

/-- World for the status-downgrade counterexample. -/
def worldC1 : World := { emptyWorld with messages := [msgC1] }

/-- The two-recipient broadcast of the status-reconciliation scenario,
after both sends succeeded (`sent = 2`). -/
def bcastC4 : BroadcastRec where
  id := "b1"
  organizationId := "org1"
  name := "Campaign"
  templateName := "promo"
  templateLanguage := "en"
  status := .PROCESSING
  totalRecipients := 2
  sentCount := 2
  deliveredCount := 0
  readCount := 0
  failedCount := 0
  replyCount := 0
  scheduledAt := none
  startedAt := some 1
  completedAt := none
  mediaId := none
  mediaType := none
  enableChatbot := true

/-- Recipient A, sent with provider id `pA`. -/
def recipA : RecipientRec where
  id := "rA"
  broadcastId := "b1"
  phoneNumber := "911111"
  vars := none
  status := .SENT
  error := none
  waMessageId := some "pA"
  sentAt := some 1
  deliveredAt := none
  readAt := none

/-- Recipient B, sent with provider id `pB`. -/
def recipB : RecipientRec :=
  { recipA with id := "rB", phoneNumber := "922222", waMessageId := some "pB" }

/-- World for the broadcast status-reconciliation scenario. -/
def worldC4 : World :=
  { emptyWorld with broadcasts := [bcastC4], recipients := [recipA, recipB] }

/-- The same broadcast marked cancelled, for the idempotent-start
scenario. -/
def worldC5 : World :=
  { worldC4 with broadcasts := [{ bcastC4 with status := .CANCELLED }] }

/-- Working hours limited to Monday–Friday 9–18. -/
def whWeekdays : WorkingHoursConfig :=
  { days := some [1, 2, 3, 4, 5], startHour := some 9, endHour := some 18 }

/-- A contact of the tenant. -/
def contactC6 : ContactRec :=
  { id := "ct1", waId := "911234", organizationId := "org1",
    name := some "Sam", profileName := none, phoneNumber := "911234" }

/-- A one-node greeting flow with trigger keyword `HI` and the weekday
working-hours policy. -/
def flowHi : FlowRec where
  id := "f1"
  name := "Hello"
  organizationId := "org1"
  nodes := [{ id := "n1", ntype := "message",
              data := [("message", .str "Hi \x7b\x7bsender_name\x7d\x7d")] }]
  edges := [{ source := "start", target := "n1", sourceHandle := none }]
  triggerKeyword := some "HI"
  isDefault := false
  isActive := true
  workingHours := some (some whWeekdays)
  sessionTimeout := 3600

/-- The same flow as a catch-all (`*`) fallback. -/
def flowStar : FlowRec := { flowHi with id := "f2", triggerKeyword := some "*" }

/-- The catch-all flow with a malformed working-hours string. -/
def flowBadWh : FlowRec := { flowStar with id := "f5", workingHours := some none }

/-- The message record handed to the interpreter in the fixtures. -/
def inputC6 : MessageRec where
  id := "m9"
  waMessageId := some "x9"
  conversationId := "c9"
  organizationId := "org1"
  mtype := "TEXT"
  content := "hi"
  caption := none
  mediaUrl := none
  mediaId := none
  direction := .INCOMING
  status := .DELIVERED
  isRead := false
  timestamp := 0
  metadata := none

/-- World with the keyword-triggered, working-hours-gated flow. -/
def worldC6 : World := { emptyWorld with contacts := [contactC6], flows := [flowHi] }

/-- World with the catch-all flow (for the fallback gating witness). -/
def worldC6b : World := { emptyWorld with contacts := [contactC6], flows := [flowStar] }

/-- World with the malformed-working-hours catch-all flow. -/
def worldC10 : World := { emptyWorld with contacts := [contactC6], flows := [flowBadWh] }

/-- A two-node cyclic flow (`a → b → a`) for the step-cap witness. -/
def flowCycle : FlowRec where
  id := "f3"
  name := "Cycle"
  organizationId := "org1"
  nodes := [{ id := "a", ntype := "message", data := [("message", .str "A")] },
            { id := "b", ntype := "message", data := [("message", .str "B")] }]
  edges := [{ source := "start", target := "a", sourceHandle := none },
            { source := "a", target := "b", sourceHandle := none },
            { source := "b", target := "a", sourceHandle := none }]
  triggerKeyword := some "LOOP"
  isDefault := false
  isActive := true
  workingHours := none
  sessionTimeout := 3600

/-- A fresh session on the cyclic flow. -/
def sessCycle : SessionRec where
  id := "s1"
  currentNodeId := some "start"
  vars := []
  lastInteraction := 0
  flowId := "f3"
  contactId := "ct1"
  organizationId := "org1"

/-- World for the step-cap witness. -/
def worldC7 : World :=
  { emptyWorld with contacts := [contactC6], flows := [flowCycle], sessions := [sessCycle] }

/-- The dynamic list node over the array variable `arr`. -/
def nodeL : FlowNode :=
  { id := "L", ntype := "list", data := [("dynamicArray", .str "arr"), ("body", .str "choose")] }

/-- The dynamic-list flow: one list node over the array variable
`arr`. -/
def flowList : FlowRec where
  id := "f4"
  name := "Menu"
  organizationId := "org1"
  nodes := [nodeL]
  edges := []
  triggerKeyword := some "LIST"
  isDefault := false
  isActive := true
  workingHours := none
  sessionTimeout := 3600

/-- A session suspended at the list node with `items` in the bag and
the pending ids of page `page` (as the node's own send leaves them). -/
def sessAtList (items : List JsVal) (page : Nat) : SessionRec where
  id := "s2"
  currentNodeId := some "L"
  vars :=
    [("arr", .arr items),
     ("_pendingListIds", .arr ((buildDynamicListRows items page).2.map .str)),
     ("_buttonNodeId", .str "L"),
     ("_retryOnInvalid", .boolv false),
     ("_fallbackMessage", .str "Invalid selection. Please try again.")] ++
    (if page > 0 then [("_list_page", .str (toString page))] else [])
  lastInteraction := 0
  flowId := "f4"
  contactId := "ct1"
  organizationId := "org1"

/-- World for the list-pagination scenarios. -/
def worldC9 (items : List JsVal) (page : Nat) : World :=
  { emptyWorld with
      contacts := [contactC6]
      flows := [flowList]
      sessions := [sessAtList items page] }

/-- An interactive inbound record carrying a `list_reply` with the
given row id and title. -/
def listReplyInput (rid title : String) : MessageRec :=
  { inputC6 with mtype := "INTERACTIVE", metadata := some (.listReply rid title) }

/-- Twenty plain string items. -/
def items20 : List JsVal := (List.range 20).map (fun i => .str ("item" ++ toString i))

/-- The inbound text entry of the unsigned-webhook scenario. -/
def inboundC3 : InboundMessage := mkTextInbound "911234" "wamid.X" "hello"

/-- Its webhook `value`. -/
def valueC3 : WebhookValue where
  phoneNumberId := some "pn1"
  displayPhoneNumber := some "15550001"
  contactProfileName := some "Sam"
  messages := [inboundC3]
  statuses := []

/-- The full webhook envelope. -/
def envC3 : WebhookEnvelope where
  object := "whatsapp_business_account"
  entry := [{ changes := [{ value := some valueC3 }] }]

/-- Specification-level path step, following the spec's words (a path
token list of dot and bracket-index steps): one dot segment, whose
bracket suffixes `[i]` index arrays. -/
def specStep (v : JsVal) (seg : String) : Option JsVal :=
  match jsSplit seg '[' with
  | [] => none
  | name :: brs =>
      brs.foldl (fun acc br =>
        acc.bind (fun vv =>
          match jsToNat (String.mk (br.data.takeWhile Char.isDigit)) with
          | some n =>
              match vv with
              | .arr xs => xs[n]?
              | _ => none
          | none => none))
        (jsIndex v name)

/-- Specification-level path resolution over the bag: split on dots,
then apply each segment with its bracket indexes (so `a.b[0].c` reads
field `a`, field `b`, element `0`, field `c`). -/
def specBracketResolve (bag : VarBag) (path : String) : Option JsVal :=
  (jsSplit path '.').foldl (fun acc seg => acc.bind (fun v => specStep v seg)) (some (.obj bag))

/-- A bag holding the value `"x"` at the bracket path `a.b[0].c`. -/
def bagC8 : VarBag := [("a", .obj [("b", .arr [.obj [("c", .str "x")]])])]

/-- The variable bag produced by the resume preamble on the cyclic-flow
fixture: the injected system variables over an initially empty session
bag. -/
def varsC7wit : VarBag :=
  [("sender_mobile", .str "911234"), ("sender_name", .str "Sam"),
   ("last_input", .str "loop"), ("last_response", .str "loop"),
   ("last_message_type", .str "text")]

/-- The synthetic pagination rows appended by the dynamic-list
renderer. -/
def nextRow : ListRow := { id := "__next", title := "Next ➡️", description := "See more options" }

/-- The synthetic previous-page row. -/
def prevRow : ListRow := { id := "__prev", title := "⬅️ Back", description := "See previous options" }

/-- The bag updates the `list` node case performs before persisting the
session (pending ids, node id, retry flag, fallback message). -/
def listPostVars (vars : VarBag) (ids : List String) : VarBag :=
  bagSet (bagSet (bagSet (bagSet vars "_pendingListIds" (.arr (ids.map .str)))
    "_buttonNodeId" (.str "L")) "_retryOnInvalid" (.boolv false))
    "_fallbackMessage" (.str "Invalid selection. Please try again.")

/-- The variable bag right after the resume preamble injects the system
variables into a list-node session of `sessAtList` shape, before the
pagination handler writes `_list_page`. -/
def preBagC9 (items : List JsVal) (page : Nat) (title : String) : VarBag :=
  [("arr", .arr items),
   ("_pendingListIds", .arr ((buildDynamicListRows items page).2.map .str)),
   ("_buttonNodeId", .str "L"),
   ("_retryOnInvalid", .boolv false),
   ("_fallbackMessage", .str "Invalid selection. Please try again.")] ++
  (if page > 0 then [("_list_page", .str (toString page))] else []) ++
  [("sender_mobile", .str "911234"),
   ("sender_name", .str "Sam"),
   ("last_input", .str title),
   ("last_response", .str title),
   ("last_message_type", .str "interactive")]

/-- The bag handed to the node loop after a `Next` selection on page
0. -/
def varsC9next (items : List JsVal) : VarBag :=
  preBagC9 items 0 "Next ➡️" ++ [("_list_page", .str "1")]

/-- The bag handed to the node loop after a `Back` selection on page
1. -/
def varsC9prev1 (items : List JsVal) : VarBag :=
  [("arr", .arr items),
   ("_pendingListIds", .arr ((buildDynamicListRows items 1).2.map .str)),
   ("_buttonNodeId", .str "L"),
   ("_retryOnInvalid", .boolv false),
   ("_fallbackMessage", .str "Invalid selection. Please try again."),
   ("_list_page", .str "0"),
   ("sender_mobile", .str "911234"),
   ("sender_name", .str "Sam"),
   ("last_input", .str "⬅️ Back"),
   ("last_response", .str "⬅️ Back"),
   ("last_message_type", .str "interactive")]

/-- The bag handed to the node loop after a `Back` selection on page 0
(the page index truncates at 0). -/
def varsC9prev0 (items : List JsVal) : VarBag :=
  preBagC9 items 0 "⬅️ Back" ++ [("_list_page", .str "0")]

/-- One pagination round trip: resume the suspended list session with
an inbound `list_reply` carrying the given row id and title. -/
def runC9 (items : List JsVal) (p : Nat) (rid title : String) : World × Nat :=
  executeFlow (worldC9 items p) (sessAtList items p) flowList (some contactC6) "911234" ""
    (listReplyInput rid title) 1000

/-- The `mediaUrl` stored by `handleIncomingMessage`: lazily resolved
through the `getMediaUrl` HTTP oracle for media message types. -/
def resolvedMediaUrl (orgId : String) (m : InboundMessage)
    (rm : String → String → Option String) : String :=
  let messageType := getMessageType m.mtype
  let ec := extractMessageContent m
  if !(ec.mediaId == "") &&
     (messageType == "IMAGE" || messageType == "VIDEO" ||
      messageType == "AUDIO" || messageType == "DOCUMENT") then
    match rm orgId ec.mediaId with
    | some url => url
    | none => ec.mediaUrl
  else ec.mediaUrl

/-- The message row `handleIncomingMessage` persists for an inbound
message (the `prisma.message.create` data). -/
def ingestedMessage (w : World) (orgId : String) (m : InboundMessage) (convId : String)
    (rm : String → String → Option String) : MessageRec :=
  { id := "cuid" ++ toString w.nextId, waMessageId := some m.id, conversationId := convId,
    organizationId := orgId, mtype := getMessageType m.mtype,
    content := (extractMessageContent m).content,
    caption := some (extractMessageContent m).caption,
    mediaUrl := some (resolvedMediaUrl orgId m rm),
    mediaId := extractMediaId m, direction := .INCOMING, status := .DELIVERED,
    isRead := false, timestamp := m.timestamp * 1000, metadata := extractMetadata m }

/-- The conversation preview/unread update `handleIncomingMessage`
applies after persisting the message. -/
def previewUpdate (m : InboundMessage) (c : ConversationRec) : ConversationRec :=
  { c with
      lastMessageAt := some (m.timestamp * 1000)
      lastMessagePreview := some (if (extractMessageContent m).content == "" then
          "[" ++ m.mtype ++ "]" else (extractMessageContent m).content.take 100)
      unreadCount := c.unreadCount + 1 }

/-! ## Theorems -/

/-- Scanning a brace-free prefix copies it unchanged. -/
theorem interpGo_no_brace (bag : VarBag) :
    ∀ (l rest : List Char), (∀ c ∈ l, ¬(c = '{')) →
      interpGo bag (l ++ rest) = l ++ interpGo bag rest := by
  intro l
  induction l with
  | nil => intro rest _; rfl
  | cons c l ih =>
      intro rest h
      have hc : ¬(c = '{') := h c (List.mem_cons_self c l)
      cases hk : l ++ rest with
      | nil =>
          rcases List.append_eq_nil.mp hk with ⟨hl, hr⟩
          subst hl; subst hr
          simp [interpGo]
      | cons c2 rest2 =>
          have step : interpGo bag (c :: l ++ rest) = c :: interpGo bag (l ++ rest) := by
            rw [List.cons_append, hk]
            show interpGo bag (c :: c2 :: rest2) = c :: interpGo bag (c2 :: rest2)
            simp only [interpGo]
            rw [if_neg (fun hcc => hc hcc.1)]
          rw [step, ih rest (fun x hx => h x (List.mem_cons_of_mem c hx))]
          rfl

/-- Token collection up to the first double closing brace renders the
collected key. -/
theorem interpTok_close (bag : VarBag) :
    ∀ (key : List Char) (rest acc : List Char),
      (∀ c ∈ key, ¬(c = '}') ∧ jsDotExcluded c = false) →
      interpTok bag (key ++ '}' :: '}' :: rest) acc
        = (renderToken bag (String.mk (acc.reverse ++ key))).toList ++ interpGo bag rest := by
  intro key
  induction key with
  | nil => intro rest acc _; simp [interpTok]
  | cons c key ih =>
      intro rest acc h
      have hc : ¬(c = '}') := (h c (List.mem_cons_self c key)).1
      have hcx : jsDotExcluded c = false := (h c (List.mem_cons_self c key)).2
      cases hk : key ++ '}' :: '}' :: rest with
      | nil => simp at hk
      | cons c2 rest2 =>
          have step : interpTok bag (c :: key ++ '}' :: '}' :: rest) acc
              = interpTok bag (key ++ '}' :: '}' :: rest) (c :: acc) := by
            rw [List.cons_append, hk]
            show interpTok bag (c :: c2 :: rest2) acc = interpTok bag (c2 :: rest2) (c :: acc)
            simp only [interpTok]
            rw [if_neg (fun hcc => hc hcc.1), if_neg (by simp [hcx])]
          rw [step, ih rest (c :: acc) (fun x hx => h x (List.mem_cons_of_mem c hx))]
          simp

/-- C8 counterexample: the bag holds `"x"` at the bracket path
`a.b[0].c` (per the spec's dot/bracket-index token reading), yet
interpolation renders the token verbatim instead of `"x"`: the
implementation splits on dots only and treats `b[0]` as a literal
property name. -/
theorem C8_counterexample :
    specBracketResolve bagC8 "a.b[0].c" = some (.str "x") ∧
    replaceVariables "\x7b\x7ba.b[0].c\x7d\x7d" bagC8 = "\x7b\x7ba.b[0].c\x7d\x7d" ∧
    ¬(replaceVariables "\x7b\x7ba.b[0].c\x7d\x7d" bagC8 = "x") := by
  refine ⟨rfl, rfl, by decide⟩

/-- C8 amended: interpolation resolves dot-separated segments only
(numeric dot segments index arrays); a token whose dotted path resolves
is replaced by the value's string form, and a token whose dotted path
is absent — including bracket-index forms such as `a.b[0].c`, whose
`b[0]` is read as a literal property name — renders as the original
token verbatim, never as the empty string. -/
theorem C8_interpolation (pre key post : String) (bag : VarBag)
    (hpre : ∀ c ∈ pre.data, ¬(c = '{'))
    (hkey : ∀ c ∈ key.data, ¬(c = '}') ∧ jsDotExcluded c = false) :
    replaceVariables (pre ++ "\x7b\x7b" ++ key ++ "\x7d\x7d" ++ post) bag
      = pre ++ renderToken bag key ++ replaceVariables post bag ∧
    (resolvePath bag (jsSplit (jsTrimStr key) '.') = none →
      renderToken bag key = "\x7b\x7b" ++ key ++ "\x7d\x7d" ∧
      ¬(renderToken bag key = "")) := by
  constructor
  · apply String.ext
    show (interpGo bag (pre ++ "\x7b\x7b" ++ key ++ "\x7d\x7d" ++ post).data)
        = (pre ++ renderToken bag key ++ replaceVariables post bag).data
    have hdata : (pre ++ "\x7b\x7b" ++ key ++ "\x7d\x7d" ++ post).data
        = pre.data ++ '{' :: '{' :: (key.data ++ '}' :: '}' :: post.data) := by
      simp [String.data_append]
    rw [hdata, interpGo_no_brace bag pre.data _ hpre]
    have hgo : interpGo bag ('{' :: '{' :: (key.data ++ '}' :: '}' :: post.data))
        = interpTok bag (key.data ++ '}' :: '}' :: post.data) [] := by
      cases hk : key.data ++ '}' :: '}' :: post.data with
      | nil => simp at hk
      | cons c2 rest2 => simp [interpGo]
    rw [hgo, interpTok_close bag key.data post.data [] hkey]
    simp [String.data_append, replaceVariables]
  · intro hres
    unfold renderToken
    rw [hres]
    refine ⟨rfl, ?_⟩
    intro h
    have := congrArg String.data h
    simp [String.data_append] at this

/-- Witness for C8's amended theorem: one resolvable and the
surrounding text. -/
theorem C8_witness :
    (∀ c ∈ ("Hi " : String).data, ¬(c = '{')) ∧
    (∀ c ∈ ("name" : String).data, ¬(c = '}') ∧ jsDotExcluded c = false) ∧
    replaceVariables ("Hi " ++ "\x7b\x7b" ++ "name" ++ "\x7d\x7d" ++ "!") [("name", .str "Sam")]
      = "Hi " ++ renderToken [("name", .str "Sam")] "name" ++
        replaceVariables "!" [("name", .str "Sam")] := by
  refine ⟨by decide, by decide, ?_⟩
  exact (C8_interpolation "Hi " "name" "!" [("name", .str "Sam")] (by decide) (by decide)).1

/-- C10: for every working-hours configuration string that is not valid
JSON (modelled by `none`, the `JSON.parse`-failure case),
`checkWorkingHours` returns `true`; consequently a fallback flow whose
working-hours policy is malformed is never gated, and the session is
created and executed at any day and hour. -/
theorem C10_malformed_working_hours_never_gates :
    (∀ (day : Nat) (hour : Int), checkWorkingHours none day hour = true) ∧
    (∀ (w : World) (orgId contactId waId messageText : String) (messageData : MessageRec)
       (now : Int) (day : Nat) (hour : Int) (ff : FlowRec),
      resolveEntrySession w orgId contactId messageText now = Sum.inl none →
      resolveFallbackFlow w orgId messageText = some ff →
      ff.workingHours = some none →
      w.sessions.any (fun s => s.contactId == contactId && s.organizationId == orgId) = false →
      processChatbotFlow w orgId contactId waId messageText messageData now day hour =
        runSessionFlow
          { w with nextId := w.nextId + 1,
                   sessions := w.sessions ++
                     [{ id := "cuid" ++ toString w.nextId, currentNodeId := some "start",
                        vars := [], lastInteraction := now, flowId := ff.id,
                        contactId := contactId, organizationId := orgId }] }
          { id := "cuid" ++ toString w.nextId, currentNodeId := some "start",
            vars := [], lastInteraction := now, flowId := ff.id,
            contactId := contactId, organizationId := orgId }
          contactId waId messageText messageData now) := by
  constructor
  · intro day hour
    rfl
  · intro w orgId contactId waId messageText messageData now day hour ff h1 h2 h3 h4
    unfold processChatbotFlow
    rw [h1, h2]
    simp [h3, h4, checkWorkingHours, genId]

/-- Witness for C10 at the malformed-working-hours catch-all flow on a
Sunday at 23:00. -/
theorem C10_witness :
    checkWorkingHours none 0 23 = true ∧
    processChatbotFlow worldC10 "org1" "ct1" "911234" "whatever" inputC6 1000 0 23 =
      runSessionFlow
        { worldC10 with nextId := worldC10.nextId + 1,
                        sessions := worldC10.sessions ++
                          [{ id := "cuid" ++ toString worldC10.nextId,
                             currentNodeId := some "start", vars := [],
                             lastInteraction := 1000, flowId := flowBadWh.id,
                             contactId := "ct1", organizationId := "org1" }] }
        { id := "cuid" ++ toString worldC10.nextId, currentNodeId := some "start",
          vars := [], lastInteraction := 1000, flowId := flowBadWh.id,
          contactId := "ct1", organizationId := "org1" }
        "ct1" "911234" "whatever" inputC6 1000 := by
  refine ⟨C10_malformed_working_hours_never_gates.1 0 23, ?_⟩
  exact C10_malformed_working_hours_never_gates.2 worldC10 "org1" "ct1" "911234" "whatever"
    inputC6 1000 0 23 flowBadWh rfl rfl rfl rfl

/-- C5: `startBroadcast` returns without any state change whenever the
broadcast's status is not `PENDING` or `SCHEDULED` — in particular
after cancellation every start attempt is a no-op: no send, no counter
or status change. -/
theorem C5_startBroadcast_idempotent (w : World) (broadcastId : String)
    (oracle : Nat → SendResult) (now : Int) (b : BroadcastRec)
    (hfind : w.broadcasts.find? (fun bb => bb.id == broadcastId) = some b)
    (hp : ¬(b.status = .PENDING)) (hs : ¬(b.status = .SCHEDULED)) :
    startBroadcast w broadcastId oracle now = w := by
  unfold startBroadcast
  rw [hfind]
  simp [beq_iff_eq, hp, hs]

/-- Witness for C5 on a cancelled two-recipient broadcast. -/
theorem C5_witness :
    ¬(BroadcastStatus.CANCELLED = .PENDING) ∧
    ¬(BroadcastStatus.CANCELLED = .SCHEDULED) ∧
    startBroadcast worldC5 "b1" (fun _ => .ok "wamid.Z") 9 = worldC5 := by
  refine ⟨by decide, by decide, ?_⟩
  exact C5_startBroadcast_idempotent worldC5 "b1" (fun _ => .ok "wamid.Z") 9
    { bcastC4 with status := .CANCELLED } rfl (by decide) (by decide)

/-- C1 counterexample: a message already `READ` that receives a later
`delivered` provider event is overwritten to `DELIVERED` (its `isRead`
flag is even cleared) — the downgrade is applied, not ignored, so the
stored status does not advance only along the monotone chain. -/
theorem C1_counterexample :
    msgC1.status = .READ ∧
    (handleMessageStatus worldC1 "org1" ⟨"p1", "delivered"⟩ 5).messages
      = [{ msgC1 with status := .DELIVERED, isRead := false }] ∧
    ¬(((handleMessageStatus worldC1 "org1" ⟨"p1", "delivered"⟩ 5).messages.map
        (fun m => m.status)) = worldC1.messages.map (fun m => m.status)) := by
  refine ⟨rfl, rfl, by decide⟩

/-- C1 amended: when the status reconciler finds the message for a
provider event, it overwrites the stored status with the mapped
incoming status regardless of ordering (downgrades such as
delivered-after-read are applied; only an unrecognized status string
leaves the stored status unchanged), and sets `isRead` to whether this
event is `read`. -/
theorem C1_status_overwrite (w : World) (orgId : String) (ev : StatusEvent) (now : Int)
    (msg : MessageRec)
    (hfind : w.messages.find? (fun m =>
        m.waMessageId == some ev.id && m.organizationId == orgId) = some msg) :
    (handleMessageStatus w orgId ev now).messages
      = w.messages.map (fun m =>
          if m.id == msg.id then
            { m with status := (statusMap (jsToUpperStr ev.status)).getD msg.status,
                     isRead := jsToUpperStr ev.status == "READ" }
          else m) := by
  unfold handleMessageStatus
  simp only [hfind]
  split
  · split_ifs <;> simp [updBroadcast, updRecipient, updMessage]
  · simp [updMessage]

/-- Witness for C1's amended theorem at the read-then-delivered
fixture. -/
theorem C1_witness :
    (handleMessageStatus worldC1 "org1" ⟨"p1", "delivered"⟩ 5).messages
      = worldC1.messages.map (fun m =>
          if m.id == msgC1.id then
            { m with status := (statusMap (jsToUpperStr "delivered")).getD msgC1.status,
                     isRead := jsToUpperStr "delivered" == "READ" }
          else m) := by
  exact C1_status_overwrite worldC1 "org1" ⟨"p1", "delivered"⟩ 5 msgC1 rfl

/-- C3: the webhook POST handler never consults the
`X-Hub-Signature-256` header — its result is identical for any two
signature header values — and a request carrying no signature at all is
processed in full (outside development or not): the message row is
persisted and the interpreter invocation scheduled.  (The repository's
`verifyWebhookSignature` middleware, which would reject such requests,
is never mounted on the webhook route.) -/
theorem C3_signature_never_verified :
    (∀ (w : World) (orgIdParam : Option String) (body : Option WebhookEnvelope)
       (s1 s2 : Option String) (rm : String → String → Option String) (now : Int),
      handleWebhook w { orgIdParam := orgIdParam, signatureHeader := s1, body := body } rm now =
      handleWebhook w { orgIdParam := orgIdParam, signatureHeader := s2, body := body } rm now) ∧
    (handleWebhook emptyWorld
        { orgIdParam := none, signatureHeader := none, body := some envC3 } noMedia 0).messages.length = 1 ∧
    (handleWebhook emptyWorld
        { orgIdParam := none, signatureHeader := none, body := some envC3 } noMedia 0).chatbotCalls.length = 1 := by
  refine ⟨fun w orgIdParam body s1 s2 rm now => rfl, rfl, rfl⟩

/-- C6 counterexample: the flow is selected by its exact trigger
keyword, its working-hours policy excludes the current time (Sunday
23:00), and yet the interpreter runs: the message node executes and
sends.  The working-hours gate exists only on the fallback path. -/
theorem C6_counterexample :
    flowHi.workingHours = some (some whWeekdays) ∧
    checkWorkingHours (some whWeekdays) 0 23 = false ∧
    findFlowOrdered worldC6 (fun f =>
      f.organizationId == "org1" && f.isActive &&
      f.triggerKeyword == some (jsToUpperStr (jsTrimStr "hi"))) = some flowHi ∧
    ((processChatbotFlow worldC6 "org1" "ct1" "911234" "hi" inputC6 1000 0 23).outbox.map
      (fun o => (o.mtype, o.content))) = [("text", "Hi Sam")] := by
  exact ⟨rfl, rfl, rfl, rfl⟩

/-- C6 amended: the working-hours gate applies exactly to
fallback-selected flows.  A flow resolved through the entry path (exact
trigger keyword or live session) executes for every day and hour; a
fallback-selected flow (catch-all trigger, `start_trigger` scan or
tenant default) whose working-hours check fails yields no session, no
node execution and no state change at all. -/
theorem C6_working_hours_gate :
    (∀ (w : World) (orgId contactId waId messageText : String) (messageData : MessageRec)
       (now : Int) (day : Nat) (hour : Int) (session : SessionRec) (w2 : World),
      resolveEntrySession w orgId contactId messageText now = Sum.inl (some (session, w2)) →
      processChatbotFlow w orgId contactId waId messageText messageData now day hour =
        runSessionFlow w2 session contactId waId messageText messageData now) ∧
    (∀ (w : World) (orgId contactId waId messageText : String) (messageData : MessageRec)
       (now : Int) (day : Nat) (hour : Int) (ff : FlowRec) (cfg : Option WorkingHoursConfig),
      resolveEntrySession w orgId contactId messageText now = Sum.inl none →
      resolveFallbackFlow w orgId messageText = some ff →
      ff.workingHours = some cfg →
      checkWorkingHours cfg day hour = false →
      processChatbotFlow w orgId contactId waId messageText messageData now day hour = w) := by
  constructor
  · intro w orgId contactId waId messageText messageData now day hour session w2 h1
    unfold processChatbotFlow
    rw [h1]
  · intro w orgId contactId waId messageText messageData now day hour ff cfg h1 h2 h3 h4
    unfold processChatbotFlow
    rw [h1, h2]
    simp [h3, h4]

/-- Witness for C6's amended theorem: the keyword path runs at Sunday
23:00; the catch-all fallback path outside hours leaves the world
untouched. -/
theorem C6_witness :
    processChatbotFlow worldC6 "org1" "ct1" "911234" "hi" inputC6 1000 0 23 =
      runSessionFlow
        { worldC6 with
            nextId := 1
            sessions := [{ id := "cuid0", currentNodeId := some "start", vars := [],
                           lastInteraction := 1000, flowId := "f1", contactId := "ct1",
                           organizationId := "org1" }] }
        { id := "cuid0", currentNodeId := some "start", vars := [],
          lastInteraction := 1000, flowId := "f1", contactId := "ct1",
          organizationId := "org1" }
        "ct1" "911234" "hi" inputC6 1000 ∧
    processChatbotFlow worldC6b "org1" "ct1" "911234" "anything" inputC6 1000 0 23 = worldC6b := by
  constructor
  · exact C6_working_hours_gate.1 worldC6 "org1" "ct1" "911234" "hi" inputC6 1000 0 23
      { id := "cuid0", currentNodeId := some "start", vars := [],
        lastInteraction := 1000, flowId := "f1", contactId := "ct1",
        organizationId := "org1" }
      { worldC6 with
          nextId := 1
          sessions := [{ id := "cuid0", currentNodeId := some "start", vars := [],
                         lastInteraction := 1000, flowId := "f1", contactId := "ct1",
                         organizationId := "org1" }] }
      rfl
  · exact C6_working_hours_gate.2 worldC6b "org1" "ct1" "911234" "anything" inputC6 1000 0 23
      flowStar (some whWeekdays) rfl rfl rfl rfl

/-- C4 counterexample: in the two-recipient scenario (delivered webhook
for `pA`, read webhook for `pB` with no prior delivered), the broadcast
counters come out `sent=2, delivered=1, read=1, failed=0` — not
`delivered=2` as claimed: a read arriving first increments only the
read counter. -/
theorem C4_counterexample :
    ((handleMessageStatus (handleMessageStatus worldC4 "org1" ⟨"pA", "delivered"⟩ 2)
        "org1" ⟨"pB", "read"⟩ 3).broadcasts.map
      (fun b => (b.sentCount, b.deliveredCount, b.readCount, b.failedCount)))
      = [(2, 1, 1, 0)] ∧
    ¬(((handleMessageStatus (handleMessageStatus worldC4 "org1" ⟨"pA", "delivered"⟩ 2)
        "org1" ⟨"pB", "read"⟩ 3).broadcasts.map
      (fun b => (b.sentCount, b.deliveredCount, b.readCount, b.failedCount)))
      = [(2, 2, 1, 0)]) := by
  exact ⟨by decide, by decide⟩

/-- C4 amended: the scenario yields counters `sent=2, delivered=1,
read=1, failed=0`, recipient A in status `delivered` and recipient B in
status `read` (a read arriving before any delivered increments only the
read counter); the invariant `sent ≥ delivered ≥ read` still holds. -/
theorem C4_status_reconciliation :
    ((handleMessageStatus (handleMessageStatus worldC4 "org1" ⟨"pA", "delivered"⟩ 2)
        "org1" ⟨"pB", "read"⟩ 3).broadcasts.map
      (fun b => (b.sentCount, b.deliveredCount, b.readCount, b.failedCount)))
      = [(2, 1, 1, 0)] ∧
    ((handleMessageStatus (handleMessageStatus worldC4 "org1" ⟨"pA", "delivered"⟩ 2)
        "org1" ⟨"pB", "read"⟩ 3).recipients.map (fun r => (r.id, r.status)))
      = [("rA", .DELIVERED), ("rB", .READ)] ∧
    (∀ b ∈ (handleMessageStatus (handleMessageStatus worldC4 "org1" ⟨"pA", "delivered"⟩ 2)
        "org1" ⟨"pB", "read"⟩ 3).broadcasts,
      b.readCount ≤ b.deliveredCount ∧ b.deliveredCount ≤ b.sentCount) := by
  exact ⟨by decide, by decide, by decide⟩


theorem execLoop_steps_le (ctx : ExecCtx) :
    ∀ (fuel : Nat) (w : World) (vars : VarBag) (cur : Option String),
      (execLoop ctx w vars cur fuel).steps ≤ fuel := by
  intro fuel
  induction fuel with
  | zero => intro w vars cur; simp [execLoop]
  | succ n ih =>
      intro w vars cur
      unfold execLoop
      cases cur with
      | none => simp
      | some cid =>
          cases hfind : ctx.nodes.find? (fun nd => nd.id == cid) with
          | none => simp [hfind]
          | some node =>
              simp only [hfind]
              cases hstep : execNode ctx w vars node with
              | halt w2 => simp [hstep]
              | continueTo w2 vars2 next =>
                  simp only [hstep]
                  exact Nat.succ_le_succ (ih _ _ _)

theorem find_map_upd (l : List SessionRec) (sid : String) (f : SessionRec → SessionRec)
    (hf : ∀ s, (f s).id = s.id) :
    (l.map (fun s => if s.id == sid then f s else s)).find? (fun s => s.id == sid)
      = (l.find? (fun s => s.id == sid)).map f := by
  induction l with
  | nil => rfl
  | cons a t ih =>
      simp only [List.map_cons, List.find?_cons]
      by_cases ha : (a.id == sid) = true
      · have h2 : ((f a).id == sid) = true := by rw [hf a]; exact ha
        rw [if_pos ha]
        simp only [h2, ha]
        rfl
      · have ha2 : (a.id == sid) = false := by
          cases hb : (a.id == sid)
          · rfl
          · exact absurd hb ha
        rw [if_neg ha]
        simp only [ha2]
        exact ih

/-- C7: every interpreter invocation executes at most 30 nodes, and
when the loop falls through with a current node still set (the step cap
was hit on a cyclic flow, or the node lookup failed), `executeFlow`
persists that current node id and the variable bag into the session
row instead of deleting it. -/
theorem C7_step_cap (w : World) (session : SessionRec) (flow : FlowRec)
    (contact : Option ContactRec) (waId lastInput : String) (inputData : MessageRec)
    (now : Int) :
    (executeFlow w session flow contact waId lastInput inputData now).2 ≤ 30 ∧
    (∀ (w1 : World) (vars v2 : VarBag) (cur : Option String) (cid : String),
      executeFlowResume w session flow contact waId lastInput inputData now
          = .proceed w1 vars cur →
      (execLoop (executeFlowCtx session flow waId lastInput inputData now) w1 vars cur 30).exit
          = .fellThrough v2 (some cid) →
      (executeFlow w session flow contact waId lastInput inputData now).1.sessions.find?
          (fun s => s.id == session.id)
        = ((execLoop (executeFlowCtx session flow waId lastInput inputData now)
              w1 vars cur 30).world.sessions.find? (fun s => s.id == session.id)).map
            (fun s => { s with currentNodeId := some cid, vars := v2 })) := by
  constructor
  · unfold executeFlow
    cases hres : executeFlowResume w session flow contact waId lastInput inputData now with
    | earlyReturn w2 => simp
    | proceed w1 vars cur =>
        simp only []
        have hb := execLoop_steps_le (executeFlowCtx session flow waId lastInput inputData now)
          30 w1 vars cur
        cases hexit : (execLoop (executeFlowCtx session flow waId lastInput inputData now)
            w1 vars cur 30).exit with
        | returned => simp only [hexit]; exact hb
        | fellThrough v2 c2 =>
            simp only [hexit]
            cases c2 with
            | none => exact hb
            | some cid => exact hb
  · intro w1 vars v2 cur cid hres hexit
    unfold executeFlow
    simp only [hres, hexit]
    unfold updSession
    simp only []
    exact find_map_upd _ session.id _ (fun s => rfl)

/-- C7 witness: on the two-node cycle fixture the invocation runs
exactly 30 steps (≤ 30) and the session keeps current node `a` with the
resume-produced bag. -/
theorem C7_witness :
    ((executeFlow worldC7 sessCycle flowCycle (some contactC6) "911234" "loop" inputC6 1000).2
        ≤ 30) ∧
    ((executeFlow worldC7 sessCycle flowCycle (some contactC6) "911234" "loop"
          inputC6 1000).1.sessions.find? (fun s => s.id == sessCycle.id)
      = ((execLoop (executeFlowCtx sessCycle flowCycle "911234" "loop" inputC6 1000)
            worldC7 varsC7wit (some "a") 30).world.sessions.find?
              (fun s => s.id == sessCycle.id)).map
          (fun s => { s with currentNodeId := some "a", vars := varsC7wit })) :=
  ⟨(C7_step_cap worldC7 sessCycle flowCycle (some contactC6) "911234" "loop" inputC6 1000).1,
   (C7_step_cap worldC7 sessCycle flowCycle (some contactC6) "911234" "loop" inputC6 1000).2
     worldC7 varsC7wit varsC7wit (some "a") "a" rfl rfl⟩

/-- Page 0 of a dynamic list with more than 9 items: the first 9 items
and then the synthetic `Next` row. -/
theorem buildRows0_eq (items : List JsVal) (h : 9 < items.length) :
    buildDynamicListRows items 0
      = ((items.take 9).enum.map (fun pr => dynamicRow 0 pr.1 pr.2) ++ [nextRow],
         ((items.take 9).enum.map (fun pr => dynamicRow 0 pr.1 pr.2)).map (fun r => r.id)
           ++ ["__next"]) := by
  unfold buildDynamicListRows
  dsimp only
  rw [if_pos (show 0 * 9 + 9 < items.length from h)]
  simp [nextRow]

/-- Page 1 of a dynamic list: items 10–18, a `Next` row exactly when
further items remain, and a `Back` row. -/
theorem buildRows1_eq (items : List JsVal) :
    buildDynamicListRows items 1
      = (((items.drop 9).take 9).enum.map (fun pr => dynamicRow 9 pr.1 pr.2)
           ++ (if 18 < items.length then [nextRow] else []) ++ [prevRow],
         (((items.drop 9).take 9).enum.map (fun pr => dynamicRow 9 pr.1 pr.2)).map (fun r => r.id)
           ++ (if 18 < items.length then ["__next"] else []) ++ ["__prev"]) := by
  unfold buildDynamicListRows
  dsimp only
  by_cases h18 : (18 : Nat) < items.length
  · rw [if_pos (show 1 * 9 + 9 < items.length from h18), if_pos h18, if_pos h18]
    simp [nextRow, prevRow]
  · rw [if_neg (show ¬(1 * 9 + 9 < items.length) from h18), if_neg h18, if_neg h18]
    simp [prevRow]

theorem rows_page0_ne (items : List JsVal) (h : 9 < items.length) :
    (buildDynamicListRows items 0).1.isEmpty = false := by
  rw [buildRows0_eq items h]
  simp

theorem rows_page1_ne (items : List JsVal) :
    (buildDynamicListRows items 1).1.isEmpty = false := by
  rw [buildRows1_eq items]
  simp

/-- The `list` node case of the switch on the dynamic-array fixture
node: send the current page and persist the session suspended at the
node. -/
theorem execNode_listnode (ctx : ExecCtx) (w : World) (vars : VarBag) (items : List JsVal)
    (q : Nat) (harr : bagGet vars "arr" = some (.arr items))
    (hpage : parseListPage vars = q)
    (hne : (buildDynamicListRows items q).1.isEmpty = false) :
    execNode ctx w vars nodeL
      = .halt (updSession (sendListMsg w ctx.organizationId ctx.waId "choose" "Options"
            [⟨"Options", (buildDynamicListRows items q).1⟩] none) ctx.sessionId
            (fun s => { s with
                currentNodeId := some "L"
                vars := listPostVars vars (buildDynamicListRows items q).2 })) := by
  have hbuilt : buildListSections nodeL vars
      = ([⟨"Options", (buildDynamicListRows items q).1⟩], (buildDynamicListRows items q).2) := by
    unfold buildListSections
    dsimp only
    rw [show dataTruthy nodeL.data "dynamicArray" = true from rfl]
    rw [show jsTrimStr (strOr (dataStr nodeL.data "dynamicArray") "") = "arr" from rfl]
    rw [harr]
    dsimp only
    rw [hpage]
    simp only [eq_self_iff_true, if_true]
    rw [hne]
    simp
  unfold execNode
  simp only [hbuilt]
  rfl

/-- One step of the node loop on the list node: the case `return`s, so
the loop ends after a single iteration. -/
theorem execLoop_listnode (ctx : ExecCtx) (w : World) (vars : VarBag) (items : List JsVal)
    (q fuel : Nat) (hnodes : ctx.nodes = [nodeL])
    (harr : bagGet vars "arr" = some (.arr items))
    (hpage : parseListPage vars = q)
    (hne : (buildDynamicListRows items q).1.isEmpty = false) :
    execLoop ctx w vars (some "L") (fuel + 1)
      = ⟨updSession (sendListMsg w ctx.organizationId ctx.waId "choose" "Options"
            [⟨"Options", (buildDynamicListRows items q).1⟩] none) ctx.sessionId
            (fun s => { s with
                currentNodeId := some "L"
                vars := listPostVars vars (buildDynamicListRows items q).2 }),
         .returned, 1⟩ := by
  unfold execLoop
  rw [hnodes]
  dsimp only
  rw [show ([nodeL].find? (fun n => n.id == "L")) = some nodeL from rfl]
  dsimp only
  rw [execNode_listnode ctx w vars items q harr hpage hne]

/-- Resuming the page-0 list session with a `Next` reply advances
`_list_page` to 1 and re-targets the list node. -/
theorem resC9next (items : List JsVal) :
    executeFlowResume (worldC9 items 0) (sessAtList items 0) flowList (some contactC6)
      "911234" "" (listReplyInput "__next" "Next ➡️") 1000
    = .proceed (worldC9 items 0) (varsC9next items) (some "L") := by
  have h0 : parseListPage (preBagC9 items 0 "Next ➡️") = 0 := rfl
  have step1 : executeFlowResume (worldC9 items 0) (sessAtList items 0) flowList
      (some contactC6) "911234" "" (listReplyInput "__next" "Next ➡️") 1000
      = .proceed (worldC9 items 0)
          (bagSet (preBagC9 items 0 "Next ➡️") "_list_page"
            (.str (toString (parseListPage (preBagC9 items 0 "Next ➡️") + 1)))) (some "L") := rfl
  rw [step1, h0]
  rfl

/-- Resuming the page-1 list session with a `Back` reply moves
`_list_page` back to 0. -/
theorem resC9prev1 (items : List JsVal) :
    executeFlowResume (worldC9 items 1) (sessAtList items 1) flowList (some contactC6)
      "911234" "" (listReplyInput "__prev" "⬅️ Back") 1000
    = .proceed (worldC9 items 1) (varsC9prev1 items) (some "L") := by
  have h0 : parseListPage (preBagC9 items 1 "⬅️ Back") = 1 := rfl
  have step1 : executeFlowResume (worldC9 items 1) (sessAtList items 1) flowList
      (some contactC6) "911234" "" (listReplyInput "__prev" "⬅️ Back") 1000
      = .proceed (worldC9 items 1)
          (bagSet (preBagC9 items 1 "⬅️ Back") "_list_page"
            (.str (toString (parseListPage (preBagC9 items 1 "⬅️ Back") - 1)))) (some "L") := rfl
  rw [step1, h0]
  rfl

/-- Resuming the page-0 list session with a `Back` reply leaves the
page at 0: the truncated decrement never goes below zero. -/
theorem resC9prev0 (items : List JsVal) :
    executeFlowResume (worldC9 items 0) (sessAtList items 0) flowList (some contactC6)
      "911234" "" (listReplyInput "__prev" "⬅️ Back") 1000
    = .proceed (worldC9 items 0) (varsC9prev0 items) (some "L") := by
  have h0 : parseListPage (preBagC9 items 0 "⬅️ Back") = 0 := rfl
  have step1 : executeFlowResume (worldC9 items 0) (sessAtList items 0) flowList
      (some contactC6) "911234" "" (listReplyInput "__prev" "⬅️ Back") 1000
      = .proceed (worldC9 items 0)
          (bagSet (preBagC9 items 0 "⬅️ Back") "_list_page"
            (.str (toString (parseListPage (preBagC9 items 0 "⬅️ Back") - 1)))) (some "L") := rfl
  rw [step1, h0]
  rfl


/-- The `Next` round trip from page 0: one send rendering page 1, page
persisted as 1. -/
theorem runC9next_eq (items : List JsVal) :
    runC9 items 0 "__next" "Next ➡️"
      = (updSession (sendListMsg (worldC9 items 0) "org1" "911234" "choose" "Options"
            [⟨"Options", (buildDynamicListRows items 1).1⟩] none) "s2"
            (fun s => { s with
                currentNodeId := some "L"
                vars := listPostVars (varsC9next items) (buildDynamicListRows items 1).2 }), 1) := by
  unfold runC9 executeFlow
  rw [resC9next items]
  dsimp only
  rw [show (30:Nat) = 29 + 1 from rfl]
  rw [execLoop_listnode _ _ (varsC9next items) items 1 29 rfl rfl rfl (rows_page1_ne items)]
  rfl

/-- The `Back` round trip from page 1: one send rendering page 0. -/
theorem runC9prev1_eq (items : List JsVal) (h : 9 < items.length) :
    runC9 items 1 "__prev" "⬅️ Back"
      = (updSession (sendListMsg (worldC9 items 1) "org1" "911234" "choose" "Options"
            [⟨"Options", (buildDynamicListRows items 0).1⟩] none) "s2"
            (fun s => { s with
                currentNodeId := some "L"
                vars := listPostVars (varsC9prev1 items) (buildDynamicListRows items 0).2 }), 1) := by
  unfold runC9 executeFlow
  rw [resC9prev1 items]
  dsimp only
  rw [show (30:Nat) = 29 + 1 from rfl]
  rw [execLoop_listnode _ _ (varsC9prev1 items) items 0 29 rfl rfl rfl (rows_page0_ne items h)]
  rfl

/-- The `Back` round trip from page 0: the page stays 0. -/
theorem runC9prev0_eq (items : List JsVal) (h : 9 < items.length) :
    runC9 items 0 "__prev" "⬅️ Back"
      = (updSession (sendListMsg (worldC9 items 0) "org1" "911234" "choose" "Options"
            [⟨"Options", (buildDynamicListRows items 0).1⟩] none) "s2"
            (fun s => { s with
                currentNodeId := some "L"
                vars := listPostVars (varsC9prev0 items) (buildDynamicListRows items 0).2 }), 1) := by
  unfold runC9 executeFlow
  rw [resC9prev0 items]
  dsimp only
  rw [show (30:Nat) = 29 + 1 from rfl]
  rw [execLoop_listnode _ _ (varsC9prev0 items) items 0 29 rfl rfl rfl (rows_page0_ne items h)]
  rfl

/-- C9: a dynamic list node over more than 9 items renders the first 9
rows plus a `Next` row; resuming with `Next` re-renders page 1 (items
10–18 with a `Back` row and, when further items remain, another `Next`
row) and persists `_list_page = 1`; `Back` from page 1 returns to page
0, `Back` at page 0 stays at page 0 (the index never goes below 0); and
every item keeps its original row id on whichever page it appears. -/
theorem C9_list_pagination (items : List JsVal) (h : 9 < items.length) :
    (buildDynamicListRows items 0).1
        = (items.take 9).enum.map (fun pr => dynamicRow 0 pr.1 pr.2) ++ [nextRow] ∧
    (buildDynamicListRows items 1).1
        = ((items.drop 9).take 9).enum.map (fun pr => dynamicRow 9 pr.1 pr.2)
            ++ (if 18 < items.length then [nextRow] else []) ++ [prevRow] ∧
    ((runC9 items 0 "__next" "Next ➡️").1.outbox.map (fun o => (o.content, o.caption, o.sections))
        = [("choose", some "Options", [⟨"Options", (buildDynamicListRows items 1).1⟩])]) ∧
    ((runC9 items 0 "__next" "Next ➡️").1.sessions.map (fun s => bagGet s.vars "_list_page")
        = [some (.str "1")]) ∧
    ((runC9 items 1 "__prev" "⬅️ Back").1.outbox.map (fun o => (o.content, o.caption, o.sections))
        = [("choose", some "Options", [⟨"Options", (buildDynamicListRows items 0).1⟩])]) ∧
    ((runC9 items 1 "__prev" "⬅️ Back").1.sessions.map (fun s => bagGet s.vars "_list_page")
        = [some (.str "0")]) ∧
    ((runC9 items 0 "__prev" "⬅️ Back").1.sessions.map (fun s => bagGet s.vars "_list_page")
        = [some (.str "0")]) ∧
    (∀ (s i : Nat) (item : JsVal), (dynamicRow s i item).id = (dynamicRow (s + i) 0 item).id) := by
  refine ⟨?_, ?_, ?_, ?_, ?_, ?_, ?_, ?_⟩
  · rw [buildRows0_eq items h]
  · rw [buildRows1_eq items]
  · rw [runC9next_eq items]
    rfl
  · rw [runC9next_eq items]
    rfl
  · rw [runC9prev1_eq items h]
    rfl
  · rw [runC9prev1_eq items h]
    rfl
  · rw [runC9prev0_eq items h]
    rfl
  · intro s i item
    cases item <;> simp [dynamicRow]

/-- C9 witness: the pagination round trips on twenty concrete
items. -/
theorem C9_witness :
    9 < items20.length ∧
    ((buildDynamicListRows items20 0).1
        = (items20.take 9).enum.map (fun pr => dynamicRow 0 pr.1 pr.2) ++ [nextRow] ∧
    (buildDynamicListRows items20 1).1
        = ((items20.drop 9).take 9).enum.map (fun pr => dynamicRow 9 pr.1 pr.2)
            ++ (if 18 < items20.length then [nextRow] else []) ++ [prevRow] ∧
    ((runC9 items20 0 "__next" "Next ➡️").1.outbox.map (fun o => (o.content, o.caption, o.sections))
        = [("choose", some "Options", [⟨"Options", (buildDynamicListRows items20 1).1⟩])]) ∧
    ((runC9 items20 0 "__next" "Next ➡️").1.sessions.map (fun s => bagGet s.vars "_list_page")
        = [some (.str "1")]) ∧
    ((runC9 items20 1 "__prev" "⬅️ Back").1.outbox.map (fun o => (o.content, o.caption, o.sections))
        = [("choose", some "Options", [⟨"Options", (buildDynamicListRows items20 0).1⟩])]) ∧
    ((runC9 items20 1 "__prev" "⬅️ Back").1.sessions.map (fun s => bagGet s.vars "_list_page")
        = [some (.str "0")]) ∧
    ((runC9 items20 0 "__prev" "⬅️ Back").1.sessions.map (fun s => bagGet s.vars "_list_page")
        = [some (.str "0")]) ∧
    (∀ (s i : Nat) (item : JsVal), (dynamicRow s i item).id = (dynamicRow (s + i) 0 item).id)) :=
  ⟨by decide, C9_list_pagination items20 (by decide)⟩

theorem find_append_of_none {α : Type} (l l2 : List α) (p : α → Bool)
    (h : l.find? p = none) : (l ++ l2).find? p = l2.find? p := by
  induction l with
  | nil => rfl
  | cons a t ih =>
      simp only [List.find?_cons] at h ⊢
      cases hp : p a with
      | true => rw [hp] at h; exact absurd h (by simp)
      | false =>
          rw [hp] at h
          simp only [List.cons_append, List.find?_cons, hp]
          exact ih h

theorem filter_nil_of {α : Type} (l : List α) (p : α → Bool)
    (h : ∀ a ∈ l, p a = false) : l.filter p = [] := by
  induction l with
  | nil => rfl
  | cons a t ih =>
      simp only [List.filter_cons, h a (by simp)]
      exact ih (fun b hb => h b (by simp [hb]))

theorem any_false_of {α : Type} (l : List α) (p : α → Bool)
    (h : ∀ a ∈ l, p a = false) : l.any p = false := by
  induction l with
  | nil => rfl
  | cons a t ih =>
      simp only [List.any_cons, h a (by simp)]
      exact ih (fun b hb => h b (by simp [hb]))

theorem find_map_of_pres {α : Type} (l : List α) (p : α → Bool) (g : α → α)
    (hp : ∀ a, p (g a) = p a) : (l.map g).find? p = (l.find? p).map g := by
  induction l with
  | nil => rfl
  | cons a t ih =>
      simp only [List.map_cons, List.find?_cons, hp a]
      cases hpa : p a with
      | true => rfl
      | false => exact ih

theorem map_upd_of_nomatch {α : Type} (l : List α) (p : α → Bool) (f : α → α)
    (h : ∀ a ∈ l, p a = false) : l.map (fun a => if p a then f a else a) = l := by
  induction l with
  | nil => rfl
  | cons a t ih =>
      simp only [List.map_cons, h a (by simp)]
      rw [if_neg (by simp), ih (fun b hb => h b (by simp [hb]))]

theorem sum_unread_upd (l : List ConversationRec) (cid : String)
    (f : ConversationRec → ConversationRec)
    (hf : ∀ c, (f c).unreadCount = c.unreadCount + 1)
    (hone : (l.filter (fun c => c.id == cid)).length = 1) :
    ((l.map (fun c => if c.id == cid then f c else c)).map (fun c => c.unreadCount)).sum
      = (l.map (fun c => c.unreadCount)).sum + 1 := by
  induction l with
  | nil => exact absurd hone (by simp)
  | cons a t ih =>
      cases ha : (a.id == cid) with
      | true =>
          have hzero : (t.filter (fun c => c.id == cid)).length = 0 := by
            have h2 := hone
            rw [List.filter_cons, if_pos ha, List.length_cons] at h2
            omega
          have hnone : ∀ c ∈ t, (c.id == cid) = false := by
            intro c hc
            cases hcc : (c.id == cid) with
            | true =>
                exfalso
                have hmem : c ∈ t.filter (fun c => c.id == cid) :=
                  List.mem_filter.2 ⟨hc, hcc⟩
                rw [List.length_eq_zero] at hzero
                rw [hzero] at hmem
                exact absurd hmem (List.not_mem_nil c)
            | false => rfl
          rw [List.map_cons, List.map_cons, ha, if_pos rfl]
          rw [map_upd_of_nomatch t (fun c => c.id == cid) f hnone]
          simp only [List.map_cons, List.sum_cons, hf a]
          omega
      | false =>
          have hrest : (t.filter (fun c => c.id == cid)).length = 1 := by
            have := hone
            simp only [List.filter_cons, ha] at this
            simpa using this
          rw [List.map_cons, List.map_cons, ha]
          simp only [Bool.false_eq_true, if_false, List.map_cons, List.sum_cons]
          rw [ih hrest]
          omega

theorem filter_one_of_mem_nodup (l : List ConversationRec) (cv : ConversationRec)
    (hmem : cv ∈ l) (hnd : (l.map (fun c => c.id)).Nodup) :
    (l.filter (fun c => c.id == cv.id)).length = 1 := by
  induction l with
  | nil => exact absurd hmem (List.not_mem_nil cv)
  | cons a t ih =>
      simp only [List.map_cons, List.nodup_cons] at hnd
      cases hmem with
      | head =>
          simp only [List.filter_cons, beq_self_eq_true, if_pos rfl]
          have hz : t.filter (fun c => c.id == cv.id) = [] := by
            apply filter_nil_of
            intro b hb
            cases hbb : (b.id == cv.id) with
            | true =>
                exfalso
                exact hnd.1 (by
                  rw [show cv.id = b.id from (eq_of_beq hbb).symm]
                  exact List.mem_map_of_mem (fun c => c.id) hb)
            | false => rfl
          rw [hz]
          rfl
      | tail _ hmemt =>
          have ha : (a.id == cv.id) = false := by
            cases haa : (a.id == cv.id) with
            | true =>
                exfalso
                exact hnd.1 (by
                  rw [eq_of_beq haa]
                  exact List.mem_map_of_mem (fun c => c.id) hmemt)
            | false => rfl
          simp only [List.filter_cons, ha]
          exact ih hmemt hnd.2

theorem upsertContact_spec (w : World) (orgId waId : String) (ci : Option String) :
    (upsertContact w orgId waId ci).2.messages = w.messages ∧
    (upsertContact w orgId waId ci).2.conversations = w.conversations ∧
    (upsertContact w orgId waId ci).2.recipients = w.recipients ∧
    (upsertContact w orgId waId ci).2.broadcasts = w.broadcasts ∧
    (upsertContact w orgId waId ci).2.chatbotCalls = w.chatbotCalls ∧
    (upsertContact w orgId waId ci).2.contacts.find?
        (fun c => c.waId == waId && c.organizationId == orgId)
      = some (upsertContact w orgId waId ci).1 := by
  unfold upsertContact
  cases hfind : w.contacts.find? (fun c => c.waId == waId && c.organizationId == orgId) with
  | some c =>
      refine ⟨rfl, rfl, rfl, rfl, rfl, ?_⟩
      exact hfind
  | none =>
      refine ⟨rfl, rfl, rfl, rfl, rfl, ?_⟩
      dsimp only [genId]
      rw [find_append_of_none _ _ _ hfind]
      simp

theorem upsertContact_found (w : World) (orgId waId : String) (ci : Option String)
    (c : ContactRec)
    (hfind : w.contacts.find? (fun c => c.waId == waId && c.organizationId == orgId) = some c) :
    upsertContact w orgId waId ci = (c, w) := by
  unfold upsertContact
  rw [hfind]

theorem findRecentRecipient_none (w : World) (phone orgId : String)
    (h : ∀ r ∈ w.recipients, ¬(r.phoneNumber = phone)) :
    findRecentRecipient w phone orgId = none := by
  unfold findRecentRecipient
  rw [filter_nil_of _ _ (fun r hr => by
    have hne := h r hr
    cases hb : (r.phoneNumber == phone) with
    | true => exact absurd (eq_of_beq hb) hne
    | false => simp [hb])]
  rfl

theorem findOrOpen_found (w : World) (orgId : String) (contact : ContactRec) (waId : String)
    (cv : ConversationRec)
    (hfind : w.conversations.find? (fun c =>
        c.contactId == contact.id && c.organizationId == orgId &&
        (c.status == .OPEN || c.status == .PENDING)) = some cv)
    (hrec : findRecentRecipient w waId orgId = none) :
    findOrOpenConversation w orgId contact waId = (cv, w) := by
  unfold findOrOpenConversation
  rw [hfind]
  dsimp only
  rw [hrec]
  dsimp only [Option.bind]
  split
  · rfl
  · rfl

theorem findOrOpen_spec (w : World) (orgId : String) (contact : ContactRec) (waId : String)
    (hrec : findRecentRecipient w waId orgId = none)
    (hConvB : ∀ c ∈ w.conversations, c.broadcastId = none)
    (hNodup : (w.conversations.map (fun c => c.id)).Nodup)
    (hFresh : ∀ c ∈ w.conversations, ∀ n : Nat, ¬(c.id = "cuid" ++ toString n)) :
    (findOrOpenConversation w orgId contact waId).2.messages = w.messages ∧
    (findOrOpenConversation w orgId contact waId).2.contacts = w.contacts ∧
    (findOrOpenConversation w orgId contact waId).2.recipients = w.recipients ∧
    (findOrOpenConversation w orgId contact waId).2.broadcasts = w.broadcasts ∧
    (findOrOpenConversation w orgId contact waId).2.chatbotCalls = w.chatbotCalls ∧
    (findOrOpenConversation w orgId contact waId).1.broadcastId = none ∧
    ((findOrOpenConversation w orgId contact waId).2.conversations.find? (fun c =>
        c.contactId == contact.id && c.organizationId == orgId &&
        (c.status == .OPEN || c.status == .PENDING))
      = some (findOrOpenConversation w orgId contact waId).1) ∧
    (((findOrOpenConversation w orgId contact waId).2.conversations.filter (fun c =>
        c.id == (findOrOpenConversation w orgId contact waId).1.id)).length = 1) ∧
    (((findOrOpenConversation w orgId contact waId).2.conversations.map
        (fun c => c.unreadCount)).sum = (w.conversations.map (fun c => c.unreadCount)).sum) := by
  have hkey : findOrOpenConversation w orgId contact waId
      = (match w.conversations.find? (fun c =>
            c.contactId == contact.id && c.organizationId == orgId &&
            (c.status == .OPEN || c.status == .PENDING)) with
         | some conv => (conv, w)
         | none =>
            let conv : ConversationRec :=
              { id := "cuid" ++ toString w.nextId, contactId := contact.id,
                organizationId := orgId, status := .OPEN, unreadCount := 0,
                lastMessageAt := none, lastMessagePreview := none,
                broadcastId := none, broadcastName := none, isReply := false }
            (conv, { w with
                       conversations := w.conversations ++ [conv]
                       nextId := w.nextId + 1 })) := by
    unfold findOrOpenConversation
    cases hfind : w.conversations.find? (fun c =>
        c.contactId == contact.id && c.organizationId == orgId &&
        (c.status == .OPEN || c.status == .PENDING)) with
    | none =>
        dsimp only
        rw [hrec]
        rfl
    | some conv =>
        dsimp only
        rw [hrec]
        dsimp only [Option.bind]
        split
        · rfl
        · rfl
  rw [hkey]
  cases hfind : w.conversations.find? (fun c =>
      c.contactId == contact.id && c.organizationId == orgId &&
      (c.status == .OPEN || c.status == .PENDING)) with
  | some conv =>
      dsimp only
      refine ⟨rfl, rfl, rfl, rfl, rfl, hConvB conv (List.mem_of_find?_eq_some hfind), hfind,
        filter_one_of_mem_nodup _ conv (List.mem_of_find?_eq_some hfind) hNodup, rfl⟩
  | none =>
      dsimp only
      refine ⟨rfl, rfl, rfl, rfl, rfl, rfl, ?_, ?_, ?_⟩
      · rw [find_append_of_none _ _ _ hfind]
        simp
      · rw [List.filter_append]
        rw [filter_nil_of w.conversations _ (fun c hc => by
          cases hb : (c.id == "cuid" ++ toString w.nextId) with
          | true => exact absurd (eq_of_beq hb) (hFresh c hc w.nextId)
          | false => rfl)]
        simp
      · simp
theorem handleIncoming_run (w : World) (orgId : String) (m : InboundMessage)
    (ci : Option String) (rm : String → String → Option String)
    (contact : ContactRec) (wU : World) (conv : ConversationRec) (wV : World)
    (hU : upsertContact w orgId m.fromNum ci = (contact, wU))
    (hV : findOrOpenConversation wU orgId contact m.fromNum = (conv, wV))
    (hany : wV.messages.any (fun mm => mm.waMessageId == some m.id) = false)
    (hbid : conv.broadcastId = none) :
    handleIncomingMessage w orgId m ci rm
      = ({ wV with
            messages := wV.messages ++ [ingestedMessage wV orgId m conv.id rm]
            conversations := wV.conversations.map
              (fun c => if c.id == conv.id then previewUpdate m c else c)
            chatbotCalls := wV.chatbotCalls ++
              [{ organizationId := orgId, contactId := contact.id, waId := contact.waId,
                 content := (extractMessageContent m).content,
                 messageId := "cuid" ++ toString wV.nextId }]
            nextId := wV.nextId + 1 }, false) := by
  unfold handleIncomingMessage
  dsimp only
  rw [hU]
  dsimp only
  rw [hV]
  dsimp only
  rw [hany]
  rw [if_neg Bool.false_ne_true]
  dsimp only [genId]
  rw [hbid]
  rfl

theorem handleIncoming_replay (w1 : World) (orgId : String) (m : InboundMessage)
    (ci : Option String) (rm : String → String → Option String)
    (contact : ContactRec) (cv : ConversationRec)
    (hfindC : w1.contacts.find?
        (fun c => c.waId == m.fromNum && c.organizationId == orgId) = some contact)
    (hfindV : w1.conversations.find? (fun c =>
        c.contactId == contact.id && c.organizationId == orgId &&
        (c.status == .OPEN || c.status == .PENDING)) = some cv)
    (hrec : findRecentRecipient w1 m.fromNum orgId = none)
    (hany : w1.messages.any (fun mm => mm.waMessageId == some m.id) = true) :
    handleIncomingMessage w1 orgId m ci rm = (w1, true) := by
  unfold handleIncomingMessage
  dsimp only
  rw [upsertContact_found w1 orgId m.fromNum ci contact hfindC]
  dsimp only
  rw [findOrOpen_found w1 orgId contact m.fromNum cv hfindV hrec]
  dsimp only
  rw [hany]
  rw [if_pos rfl]

/-- C2: for a fresh provider message id (and a tenant state with no
broadcast attribution in play), one delivery persists exactly one
message row, bumps exactly one conversation unread counter by exactly
1, and schedules exactly one interpreter invocation; replaying the
same envelope throws on the `waMessageId` unique index and leaves the
world untouched. -/
theorem C2_duplicate_webhook (w : World) (orgId : String) (m : InboundMessage)
    (ci : Option String) (rm : String → String → Option String)
    (hNoMsg : ∀ mm ∈ w.messages, ¬(mm.waMessageId = some m.id))
    (hNoRec : ∀ r ∈ w.recipients, ¬(r.phoneNumber = m.fromNum))
    (hConvB : ∀ c ∈ w.conversations, c.broadcastId = none)
    (hNodup : (w.conversations.map (fun c => c.id)).Nodup)
    (hFresh : ∀ c ∈ w.conversations, ∀ n : Nat, ¬(c.id = "cuid" ++ toString n)) :
    (handleIncomingMessage w orgId m ci rm).2 = false ∧
    ((handleIncomingMessage w orgId m ci rm).1.messages.filter
        (fun mm => mm.waMessageId == some m.id)).length = 1 ∧
    (handleIncomingMessage w orgId m ci rm).1.chatbotCalls.length
        = w.chatbotCalls.length + 1 ∧
    ((handleIncomingMessage w orgId m ci rm).1.conversations.map
        (fun c => c.unreadCount)).sum
      = (w.conversations.map (fun c => c.unreadCount)).sum + 1 ∧
    handleIncomingMessage (handleIncomingMessage w orgId m ci rm).1 orgId m ci rm
      = ((handleIncomingMessage w orgId m ci rm).1, true) := by
  cases hU : upsertContact w orgId m.fromNum ci with
  | mk contact wU =>
  have hUs := upsertContact_spec w orgId m.fromNum ci
  rw [hU] at hUs
  dsimp only at hUs
  obtain ⟨hUm, hUv, hUr, hUb, hUc, hUfind⟩ := hUs
  have hrecU : findRecentRecipient wU m.fromNum orgId = none := by
    apply findRecentRecipient_none
    rw [hUr]
    exact hNoRec
  have hVs := findOrOpen_spec wU orgId contact m.fromNum hrecU
      (by rw [hUv]; exact hConvB) (by rw [hUv]; exact hNodup) (by rw [hUv]; exact hFresh)
  cases hV : findOrOpenConversation wU orgId contact m.fromNum with
  | mk conv wV =>
  rw [hV] at hVs
  dsimp only at hVs
  obtain ⟨hVm, hVc, hVr, hVb, hVcc, hVbid, hVfind, hVone, hVsum⟩ := hVs
  have hmsgNil : w.messages.filter (fun mm => mm.waMessageId == some m.id) = [] :=
    filter_nil_of w.messages _ (fun mm hmm => by
      cases hb : (mm.waMessageId == some m.id) with
      | true => exact absurd (eq_of_beq hb) (hNoMsg mm hmm)
      | false => rfl)
  have hanyF : wV.messages.any (fun mm => mm.waMessageId == some m.id) = false := by
    rw [hVm, hUm]
    exact any_false_of _ _ (fun mm hmm => by
      cases hb : (mm.waMessageId == some m.id) with
      | true => exact absurd (eq_of_beq hb) (hNoMsg mm hmm)
      | false => rfl)
  have hrun1 := handleIncoming_run w orgId m ci rm contact wU conv wV hU hV hanyF hVbid
  refine ⟨?_, ?_, ?_, ?_, ?_⟩
  · rw [hrun1]
  · rw [hrun1]
    dsimp only
    rw [List.filter_append, hVm, hUm, hmsgNil]
    simp [ingestedMessage]
  · rw [hrun1]
    dsimp only
    rw [List.length_append, hVcc, hUc]
    rfl
  · rw [hrun1]
    dsimp only
    rw [sum_unread_upd wV.conversations conv.id (previewUpdate m) (fun c => rfl) hVone]
    rw [hVsum, hUv]
  · rw [hrun1]
    dsimp only
    apply handleIncoming_replay _ orgId m ci rm contact (previewUpdate m conv)
    · show wV.contacts.find? _ = some contact
      rw [hVc]
      exact hUfind
    · show (wV.conversations.map _).find? _ = some _
      rw [find_map_of_pres _ _ _ (fun c => by
        cases hcc : (c.id == conv.id) with
        | true => simp [hcc, previewUpdate]
        | false => simp [hcc])]
      rw [hVfind]
      simp
    · apply findRecentRecipient_none
      show ∀ r ∈ wV.recipients, _
      rw [hVr, hUr]
      exact hNoRec
    · show (wV.messages ++ [ingestedMessage wV orgId m conv.id rm]).any _ = true
      rw [List.any_append]
      simp [ingestedMessage]

/-- C2 witness: the duplicate-envelope scenario on the empty tenant
state. -/
theorem C2_witness :
    (handleIncomingMessage emptyWorld "org1" inboundC3 (some "Sam") noMedia).2 = false ∧
    ((handleIncomingMessage emptyWorld "org1" inboundC3 (some "Sam") noMedia).1.messages.filter
        (fun mm => mm.waMessageId == some inboundC3.id)).length = 1 ∧
    (handleIncomingMessage emptyWorld "org1" inboundC3 (some "Sam") noMedia).1.chatbotCalls.length
        = emptyWorld.chatbotCalls.length + 1 ∧
    ((handleIncomingMessage emptyWorld "org1" inboundC3 (some "Sam") noMedia).1.conversations.map
        (fun c => c.unreadCount)).sum
      = (emptyWorld.conversations.map (fun c => c.unreadCount)).sum + 1 ∧
    handleIncomingMessage
        (handleIncomingMessage emptyWorld "org1" inboundC3 (some "Sam") noMedia).1
        "org1" inboundC3 (some "Sam") noMedia
      = ((handleIncomingMessage emptyWorld "org1" inboundC3 (some "Sam") noMedia).1, true) :=
  C2_duplicate_webhook emptyWorld "org1" inboundC3 (some "Sam") noMedia
    (by simp [emptyWorld]) (by simp [emptyWorld]) (by simp [emptyWorld])
    (by simp [emptyWorld]) (by simp [emptyWorld])
end WABackend
